import Mathlib

/-!
Verification of the infravelo-radnetz attribute pipeline.

This file gives a shallow embedding of the parts of the pipeline that the
claims below are about:

* `src/processing/helpers/width_parser.py` (`parse_width`),
* `src/processing/helpers/traffic_signs.py` (`has_traffic_sign`),
* `src/processing/translate_attributes_tilda_to_rvn.py` (the TILDA → RVN
  attribute translator),
* `src/processing/start_snapping.py` (directional snapping: candidate
  filtering, per-direction best-candidate selection, variant creation),
* `src/processing/aggregate_final_model.py` (worst-value aggregation and
  district assignment).

Modelling conventions:

* Python / pandas scalar values are the inductive type `Val`: strings,
  ints, floats (modelled exactly by the rational type `PyFloat`),
  booleans, `None` and pandas `NaN`.
* A dataframe row (or a Python dict such as `seg_dict`) is an association
  list `Row := List (String × Val)`; a missing column is an absent key.
* Geometry is external (shapely / numpy): a line geometry is represented
  by its bearing in degrees (the value `calculate_line_angle` /
  `calculate_angles_vectorized` computes from its coordinates with
  `np.arctan2`) together with its length in metres; distances between
  geometries are carried as data on the candidate records, exactly as the
  code carries them in the computed columns `d` and `dist_to_mid`.
* Python floats are modelled as exact rationals; `round(x, 1)` and
  `round(x)` use round-half-to-even, as Python does on exactly
  representable values.
-/

namespace Radnetz

/-- An exact rational value standing for a Python float: numerator over
a (positive, by construction) denominator. It is deliberately not
normalised — all operations below are exact integer arithmetic, so they
evaluate inside the kernel; Python-float rounding error is outside the
model. -/
structure PyFloat where
  num : ℤ
  den : ℕ
  deriving DecidableEq, Repr

namespace PyFloat

/-- Exact comparison `a ≤ b` by cross-multiplication. -/
def leB (a b : PyFloat) : Bool := a.num * (b.den : ℤ) ≤ b.num * (a.den : ℤ)

/-- Exact comparison `a < b` by cross-multiplication. -/
def ltB (a b : PyFloat) : Bool := a.num * (b.den : ℤ) < b.num * (a.den : ℤ)

/-- Exact subtraction. -/
def sub (a b : PyFloat) : PyFloat :=
  ⟨a.num * (b.den : ℤ) - b.num * (a.den : ℤ), a.den * b.den⟩

/-- Absolute value. -/
def absF (a : PyFloat) : PyFloat := ⟨|a.num|, a.den⟩

/-- Minimum of two values (`min`). -/
def minF (a b : PyFloat) : PyFloat := if leB a b then a else b

/-- The integer `z` as a float. -/
def ofInt (z : ℤ) : PyFloat := ⟨z, 1⟩

/-- Multiplication by 10 (used by one-decimal rounding). -/
def mulTen (a : PyFloat) : PyFloat := ⟨a.num * 10, a.den⟩

/-- `math.floor` as exact floor division. -/
def floorI (a : PyFloat) : ℤ := a.num.fdiv (a.den : ℤ)

end PyFloat

instance (n : ℕ) : OfNat PyFloat n := ⟨⟨(n : ℤ), 1⟩⟩

/-- A Python/pandas scalar value as it occurs in a dataframe cell. -/
inductive Val where
  | vStr   : String → Val
  | vInt   : Int → Val
  | vFloat : PyFloat → Val
  | vBool  : Bool → Val
  | vNone  : Val
  | vNaN   : Val
  deriving DecidableEq, Repr

open Val

/-- Decimal rendering of a float value, used only for Python
`str(float)`; no claim in this file inspects the string form of a
float. -/
def ratStr (q : PyFloat) : String :=
  toString q.num ++ "/" ++ toString q.den

/-- Python `str(value)` on a scalar value. -/
def pyStr : Val → String
  | vStr s   => s
  | vInt z   => toString z
  | vFloat q => ratStr q
  | vBool b  => if b then "True" else "False"
  | vNone    => "None"
  | vNaN     => "nan"

/-- Python truthiness `bool(value)` on a scalar value (`NaN` is truthy). -/
def truthy : Val → Bool
  | vStr s   => s ≠ ""
  | vInt z   => z ≠ 0
  | vFloat q => q.num ≠ 0
  | vBool b  => b
  | vNone    => false
  | vNaN     => true

/-- `pd.isna(value)`: `None` and `NaN` are the missing-value scalars. -/
def isna : Val → Bool
  | vNone => true
  | vNaN  => true
  | _     => false

/-- Python `value == "s"` where `value` is an arbitrary scalar: true only
for an equal string (comparison with a non-string is `False`). -/
def pyEqStr (v : Val) (s : String) : Bool :=
  match v with
  | vStr t => t = s
  | _      => false

/-- A dataframe row / Python dict: an association list from column name
to value. A missing column is an absent key. -/
abbrev Row := List (String × Val)

/-- First-match lookup of a column in a row (`row[k]` when present). -/
def rowLookup : Row → String → Option Val
  | [], _ => none
  | (k, v) :: rest, key => if k = key then some v else rowLookup rest key

/-- `row.get(k, default)`. -/
def rowGetD (r : Row) (k : String) (d : Val) : Val :=
  (rowLookup r k).getD d

/-- Column assignment `row[k] = v`: the key is (re)bound to `v`. -/
def rowSet (r : Row) (k : String) (v : Val) : Row :=
  (List.filter (fun e => decide (e.1 ≠ k)) r) ++ [(k, v)]

/-- `k in row`: the column exists. -/
def rowHas (r : Row) (k : String) : Bool :=
  (rowLookup r k).isSome

/-! String primitives, implemented over `List Char` so that they reduce
in the kernel. They mirror the Python operations the code uses. -/

/-- `p` is a leading piece of `l` (list-level `startswith`). -/
def listIsPre : List Char → List Char → Bool
  | [], _ => true
  | _, [] => false
  | a :: as, b :: bs => a = b && listIsPre as bs

/-- `s.startswith(p)`. -/
def strStartsWith (s p : String) : Bool := listIsPre p.data s.data

/-- `s.endswith(p)`. -/
def strEndsWith (s p : String) : Bool := listIsPre p.data.reverse s.data.reverse

/-- Remove a leading piece, when present. -/
def stripPreList : List Char → List Char → Option (List Char)
  | [], l => some l
  | _ :: _, [] => none
  | a :: as, b :: bs => if a = b then stripPreList as bs else none

/-- Fuel-driven worker for `split`: each step consumes at least one
character of the text when the separator is non-empty, so text length
plus one is enough fuel. -/
def splitOnAuxFuel (sep : List Char) : ℕ → List Char → List Char → List (List Char)
  | 0, l, acc => [acc.reverse ++ l]
  | _ + 1, [], acc => [acc.reverse]
  | fuel + 1, c :: rest, acc =>
    match stripPreList sep (c :: rest) with
    | some rem => acc.reverse :: splitOnAuxFuel sep fuel rem []
    | none => splitOnAuxFuel sep fuel rest (c :: acc)

/-- Python `s.split(sep)` / Lean `splitOn` for a non-empty separator:
left-to-right, non-overlapping. -/
def pySplitOn (s sep : String) : List String :=
  if sep.data = [] then [s]
  else (splitOnAuxFuel sep.data (s.data.length + 1) s.data []).map String.mk

/-- Substring test `sub in s` for a non-empty `sub` (the only way the
code uses it). -/
def strContains (s sub : String) : Bool :=
  (pySplitOn s sub).length ≠ 1

/-- Fuel-driven worker for `replace`. -/
def replaceFuel (old new : List Char) : ℕ → List Char → List Char
  | 0, l => l
  | _ + 1, [] => []
  | fuel + 1, c :: rest =>
    match stripPreList old (c :: rest) with
    | some rem => new ++ replaceFuel old new fuel rem
    | none => c :: replaceFuel old new fuel rest

/-- Python `s.replace(old, new)` for a non-empty `old` (the only way the
code uses it). -/
def pyReplace (s old new : String) : String :=
  if old.data = [] then s
  else String.mk (replaceFuel old.data new.data (s.data.length + 1) s.data)

/-- The whitespace characters Python `strip()` removes (the formfeed and
vertical-tab characters are outside the modelled inputs). -/
def isPySpace (c : Char) : Bool :=
  c = ' ' ∨ c = '\t' ∨ c = '\n' ∨ c = '\r'

/-- Python `s.strip()`. -/
def pyStrip (s : String) : String :=
  String.mk (((s.data.dropWhile isPySpace).reverse.dropWhile isPySpace).reverse)

/-- ASCII lower-casing of one character. -/
def asciiLowerChar (c : Char) : Char :=
  if 'A' ≤ c ∧ c ≤ 'Z' then Char.ofNat (c.toNat + 32) else c

/-- Python `s.lower()` (ASCII; all values it is applied to are ASCII). -/
def pyLower (s : String) : String := String.mk (s.data.map asciiLowerChar)

/-- Python `s.isdigit()` for ASCII strings: non-empty and all digits. -/
def strIsDigits (s : String) : Bool := s.data.all Char.isDigit && s ≠ ""

/-- `s[n:]` on strings (drop the first `n` characters). -/
def strDrop (s : String) (n : ℕ) : String := String.mk (s.data.drop n)

/-- `s[:-1]` on a non-empty string (drop the last character). -/
def strDropLast (s : String) : String := String.mk s.data.dropLast

end Radnetz

namespace Radnetz

open Val

/-! ### `helpers/traffic_signs.py` -/

/-- One comma-separated part of a traffic-sign value matches the target:
either `DE:<target>`, or a bare digit string equal to the target when the
whole value mentions `DE:` somewhere (source lines 37–44). -/
def trafficSignPartMatches (whole part target : String) : Bool :=
  let p := pyStrip part
  if strStartsWith p "DE:" then
    (strDrop p 3) = target
  else if strIsDigits p && strContains whole "DE:" then
    p = target
  else false

/-- `has_traffic_sign(traffic_sign_value, target_sign)` from
`helpers/traffic_signs.py`. -/
def has_traffic_sign (v : Val) (target : String) : Bool :=
  if ¬ truthy v || isna v then false
  else
    let s := pyStrip (pyStr v)
    if strContains s ("DE:" ++ target) then true
    else (pySplitOn s ",").any (fun part => trafficSignPartMatches s part target)

/-! ### `helpers/width_parser.py` -/

/-- Round half to even to an integer, as Python `round(x)` does on an
exactly-representable value. -/
def roundHalfEven (x : PyFloat) : ℤ :=
  let f : ℤ := x.floorI
  let r : PyFloat := x.sub (PyFloat.ofInt f)
  if r.ltB ⟨1, 2⟩ then f
  else if PyFloat.ltB ⟨1, 2⟩ r then f + 1
  else if f % 2 = 0 then f else f + 1

/-- Python `round(x, 1)`: round half to even at one decimal place. -/
def pyRound1 (x : PyFloat) : PyFloat := ⟨roundHalfEven x.mulTen, 10⟩

/-- Parse an optional run of decimal digits into a value and a count. -/
def digitsVal : List Char → Option (ℕ × ℕ)
  | [] => some (0, 0)
  | c :: rest =>
    if c.isDigit then
      match digitsVal rest with
      | some (v, n) => some (v * 10 + (c.toNat - '0'.toNat), n + 1)
      | none => none
    else none

/-- Python `float(s)` restricted to plain decimal literals
(optional sign, digits, optional point): `"2.5"`, `"-3."`, `".5"`, `"7"`.
Exotic accepted forms (exponents, `"inf"`, `"nan"`, underscores) are
outside the modelled input grammar. Returns `none` when `float` raises
`ValueError`. -/
def parseFloatQ (s : String) : Option PyFloat :=
  let t := pyStrip s
  let (sign, body) : ℤ × List Char :=
    match t.data with
    | '-' :: rest => (-1, rest)
    | '+' :: rest => (1, rest)
    | l => (1, l)
  let parts := pySplitOn (String.mk body) "."
  match parts with
  | [intPart] =>
    match digitsVal intPart.data with
    | some (v, n) => if n = 0 then none else some ⟨sign * (v : ℤ), 1⟩
    | none => none
  | [intPart, fracPart] =>
    match digitsVal intPart.data, digitsVal fracPart.data with
    | some (iv, ni), some (fv, nf) =>
      if ni = 0 ∧ nf = 0 then none
      else some ⟨sign * ((iv : ℤ) * (10 : ℤ) ^ nf + (fv : ℤ)), 10 ^ nf⟩
    | _, _ => none
  | _ => none

/-- The unit-stripping pipeline inside `parse_width` for string input:
lowercase + strip, drop every `"m"`, the substrings `"eter"` and
`"tres"`, strip again, and keep the first `";"`-separated part. -/
def stripWidthUnits (s : String) : String :=
  let s1 := pyLower (pyStrip s)
  let s2 := pyReplace (pyReplace (pyReplace s1 "m" "") "eter" "") "tres" ""
  let s3 := pyStrip s2
  if strContains s3 ";" then pyStrip ((pySplitOn s3 ";").headD "") else s3

/-- `parse_width(width_value)` from `helpers/width_parser.py`.
Falsy or missing values yield `none`; strings are unit-stripped and
parsed; numbers are used directly; the result is rounded to one decimal.
Over the modelled scalar domain every branch is total, matching the
`try/except (ValueError, TypeError)` guard in the source. -/
def parse_width (v : Val) : Option PyFloat :=
  if ¬ truthy v || isna v then none
  else
    match v with
    | vStr s   => (parseFloatQ (stripWidthUnits s)).map pyRound1
    | vInt z   => some (pyRound1 (PyFloat.ofInt z))
    | vFloat q => some (pyRound1 q)
    | vBool b  => some (pyRound1 (PyFloat.ofInt (if b then 1 else 0)))
    | vNone    => none
    | vNaN     => none

/-! ### `translate_attributes_tilda_to_rvn.py` -/

/-- `MAPPING_OFM_SURFACE` from the source, as a lookup table. -/
def MAPPING_OFM_SURFACE : List (String × String) :=
  [("asphalt", "Asphalt"),
   ("concrete", "Beton (Platte etc.)"),
   ("concrete:plates", "Beton (Platte etc.)"),
   ("concrete:lanes", "Beton (Platte etc.)"),
   ("paving_stones", "Gepflastert (Berliner Platte, Mosaik, Kleinstein...)"),
   ("mosaic_sett", "Gepflastert (Berliner Platte, Mosaik, Kleinstein...)"),
   ("small_sett", "Gepflastert (Berliner Platte, Mosaik, Kleinstein...)"),
   ("large_sett", "Gepflastert (Berliner Platte, Mosaik, Kleinstein...)"),
   ("sett", "Kopfsteinpflaster / Großstein"),
   ("cobblestone", "Kopfsteinpflaster / Großstein"),
   ("bricks", "Kopfsteinpflaster / Großstein"),
   ("stone", "Kopfsteinpflaster / Großstein"),
   ("unpaved", "Ungebunden"),
   ("ground", "Ungebunden"),
   ("grass", "Ungebunden"),
   ("sand", "Ungebunden"),
   ("compacted", "Ungebunden"),
   ("fine_gravel", "Ungebunden"),
   ("pebblestone", "Ungebunden"),
   ("gravel", "Ungebunden")]

/-- `MAPPING_PROTEK_SEPARATION` from the source. -/
def MAPPING_PROTEK_SEPARATION : List (String × String) :=
  [("bollard", "Poller (auf Sperrfläche)"),
   ("bump", "Schwellen (auf Sperrfläche)"),
   ("vertical_panel", "Leitboys (flexibel, auf Breitstrich, ohne Sperrfläche)"),
   ("planter", "Sonstige (z.B. Pflanzkübel, Leitplanke)"),
   ("guard_rail", "Sonstige (z.B. Pflanzkübel, Leitplanke)"),
   ("no", "Ohne")]

/-- Association-list lookup with string keys (Python `dict` lookup). -/
def tableLookup : List (String × String) → String → Option String
  | [], _ => none
  | (k, v) :: rest, key => if k = key then some v else tableLookup rest key

/-- `determine_verkehrsri(row, data_source)` (source lines 82–135). -/
def determine_verkehrsri (row : Row) (data_source : String) : String :=
  let oneway := pyStrip (pyStr (rowGetD row "oneway" (vStr "")))
  let oneway_bicycle := pyStrip (pyStr (rowGetD row "oneway_bicycle" (vStr "")))
  if data_source = "bikelanes" then
    if oneway = "yes" then "Einrichtungsverkehr"
    else if oneway = "no" then "Zweirichtungsverkehr"
    else if oneway = "car_not_bike" then "Zweirichtungsverkehr"
    else if oneway = "assumed_no" then "[TODO] Vermutlich nein"
    else if oneway = "implicit_yes" then "[TODO] Vermutlich Einrichtungsverkehr"
    else if oneway = "" ∨ oneway = "None" ∨ oneway = "none" then "[TODO] Fehlender Wert"
    else "[TODO] Fehlerhafter Wert"
  else if data_source = "streets" ∨ data_source = "paths" then
    if oneway = "" ∨ oneway = "None" ∨ oneway = "none" ∨ oneway = "nil" then
      "Zweirichtungsverkehr"
    else if oneway_bicycle = "no" then "Zweirichtungsverkehr"
    else if oneway = "yes" then "Einrichtungsverkehr"
    else if oneway = "yes_dual_carriageway" then "Einrichtungsverkehr"
    else if oneway = "no" then "Zweirichtungsverkehr"
    else "[TODO] Fehlerhafter Wert"
  else "[TODO] Fehlerhafter Wert"

/-- `has_traffic_sign` applied to an already-`str()`-converted value, as
`determine_fuehrung` and `determine_pflicht` do. -/
def hasTrafficSignStr (s target : String) : Bool :=
  has_traffic_sign (vStr s) target

/-- `determine_fuehrung(row, data_source)` (source lines 138–192). -/
def determine_fuehrung (row : Row) (data_source : String) : String :=
  if data_source = "streets" then "Mischverkehr mit motorisiertem Verkehr"
  else if data_source = "paths" then
    "Sonstige Wege (Gehwege, Wege durch Grünflächen, Plätze)"
  else
    let category := pyStrip (pyStr (rowGetD row "category" (vStr "")))
    let traffic_sign := pyStrip (pyStr (rowGetD row "traffic_sign" (vStr "")))
    if category = "cyclewayOnHighway_exclusive" ∨ category = "cyclewayOnHighwayBetweenLanes" then
      "Radfahrstreifen"
    else if category = "sharedBusLaneBikeWithBus" then
      "Radfahrstreifen mit Linienverkehr frei (Z237 mit Z1026-32)"
    else if category = "cyclewayOnHighwayProtected" then "Geschützter Radfahrstreifen"
    else if category = "cyclewayOnHighway_advisory" then "Schutzstreifen"
    else if category = "bicycleRoad" ∨ category = "bicycleRoad_vehicleDestination" then
      "Fahrradstraße /-zone (Z 244)"
    else if ["footAndCyclewayShared", "footAndCyclewaySegregated", "cyclewaySeparated",
        "cycleway_adjoining"].any (fun cat => strStartsWith category cat) then
      if strStartsWith category "footAndCyclewayShared" ∧ hasTrafficSignStr traffic_sign "240" then
        "Gemeinsamer Geh- und Radweg mit Z240"
      else "Radweg"
    else if strStartsWith category "footwayBicycleYes" then
      if hasTrafficSignStr traffic_sign "239" ∧ hasTrafficSignStr traffic_sign "1022-10" then
        "Gehweg mit Zusatzzeichen \"Radverkehr frei\" (Z239 mit Z1022-10)"
      else if pyStrip traffic_sign = "none" ∨ pyStrip traffic_sign = "nan" then
        "Sonstige Wege (Gehwege, Wege durch Grünflächen, Plätze)"
      else "[TODO] Gehweg ohne Verkehrszeichen"
    else if category = "pedestrianAreaBicycleYes" ∧
        (hasTrafficSignStr traffic_sign "242" ∨ hasTrafficSignStr traffic_sign "242.1") ∧
        hasTrafficSignStr traffic_sign "1022-10" then
      "Fußgängerzone \"Radverkehr frei\" (Z242 mit Z1022-10)"
    else if category = "crossing" then "[TODO] Kreuzungs-Querung"
    else if category = "needsClarification" then "[TODO] Klärung notwendig"
    else "[TODO] Führung fehlt"

/-- `determine_pflicht(row, data_source)` (source lines 195–216). -/
def determine_pflicht (row : Row) (data_source : String) : Bool :=
  if data_source = "streets" ∨ data_source = "paths" then false
  else
    let traffic_sign := pyStr (rowGetD row "traffic_sign" (vStr ""))
    ["237", "240", "241"].any (fun sign => hasTrafficSignStr traffic_sign sign)

/-- The normalised surface key `str(row.get("surface", "")).strip().lower()`
used by `determine_ofm`. -/
def ofmSurfaceKey (row : Row) : String :=
  pyLower (pyStrip (pyStr (rowGetD row "surface" (vStr ""))))

/-- `determine_ofm(row)` (source lines 219–244). -/
def determine_ofm (row : Row) : String :=
  let surface := ofmSurfaceKey row
  if surface = "" ∨ surface = "nan" then "NICHT-GEFUNDEN"
  else
    match tableLookup MAPPING_OFM_SURFACE surface with
    | some out => out
    | none =>
      if surface = "grass_paver" ∨ surface = "wood" ∨ surface = "metal" ∨ surface = "paved" then
        "[TODO] Nicht zuordenbar"
      else if surface = "none" then "[TODO] Oberfläche Fehlt"
      else "NICHT-GEFUNDEN"

/-- Whether `determine_ofm` reaches its final fallback, which is the only
place it logs a warning (source line 243). -/
def determine_ofm_warns (row : Row) : Bool :=
  let surface := ofmSurfaceKey row
  if surface = "" ∨ surface = "nan" then false
  else
    match tableLookup MAPPING_OFM_SURFACE surface with
    | some _ => false
    | none =>
      ¬ (surface = "grass_paver" ∨ surface = "wood" ∨ surface = "metal" ∨ surface = "paved"
         ∨ surface = "none")

/-- `determine_farbe(row)` (source lines 247–259). -/
def determine_farbe (row : Row) : Bool :=
  let surface_color := pyLower (pyStrip (pyStr (rowGetD row "surface_color" (vStr ""))))
  surface_color = "red" ∨ surface_color = "green"

/-- Python `a or b` on scalar values (first operand when truthy). -/
def pyOrVal (a b : Val) : Val := if truthy a then a else b

/-- One side (`left` / `right`) of the `determine_protek` loop body; the
result is `some` protection when that side returns, `none` when the loop
falls through to the next side (source lines 280–297). -/
def protekSide (row : Row) (side : String) : Option String :=
  let separation := pyOrVal (rowGetD row ("separation_" ++ side) (vStr ""))
    (rowGetD row "separation" (vStr ""))
  let traffic_mode := rowGetD row ("traffic_mode_" ++ side) (vStr "")
  let markings := pyOrVal (rowGetD row ("marking_" ++ side) (vStr ""))
    (rowGetD row "marking" (vStr ""))
  let separation_str := pyLower (pyStrip (pyStr separation))
  if pyLower (pyStrip (pyStr traffic_mode)) = "parking" ∧
      strContains (pyLower (pyStr markings)) "barred_area" then
    some "Ruhender Verkehr (mit Sperrfläche)"
  else
    match tableLookup MAPPING_PROTEK_SEPARATION separation_str with
    | some out => some out
    | none =>
      if strContains (pyLower (pyStr markings)) "barred_area" ∧ separation_str = "no" then
        some "nur Sperrfläche"
      else none

/-- `determine_protek(row)` (source lines 262–301). -/
def determine_protek (row : Row) : String :=
  let category := pyStrip (pyStr (rowGetD row "category" (vStr "")))
  if category ≠ "cyclewayOnHighwayProtected" then "Ohne"
  else
    match protekSide row "left" with
    | some out => out
    | none =>
      match protekSide row "right" with
      | some out => out
      | none => "[TODO] Protektionstyp fehlt"

/-- Python `float(value)` as used on `buffer_right`: parses a decimal
string, passes a number through. A `NaN` value maps to `none` here; in
Python it stays `nan`, and the only use compares `>= 0.6`, which is
false for `nan` exactly as it is for `none`. -/
def pyFloatVal : Val → Option PyFloat
  | vStr s   => parseFloatQ s
  | vInt z   => some (PyFloat.ofInt z)
  | vFloat q => some q
  | vBool b  => some (PyFloat.ofInt (if b then 1 else 0))
  | vNone    => none
  | vNaN     => none

/-- `determine_trennstreifen(row)` (source lines 304–353). -/
def determine_trennstreifen (row : Row) : String :=
  let category := pyLower (pyStrip (pyStr (rowGetD row "category" (vStr ""))))
  let tm_left := pyLower (pyStrip (pyStr (rowGetD row "traffic_mode_left" (vStr ""))))
  let tm_right := pyLower (pyStrip (pyStr (rowGetD row "traffic_mode_right" (vStr ""))))
  if strStartsWith category "bicycleroad" then
    let sideJa := fun (side : String) =>
      let tm := pyLower (pyStrip (pyStr (rowGetD row ("traffic_mode_" ++ side) (vStr ""))))
      let markings := pyLower (pyStrip (pyStr (rowGetD row ("marking_" ++ side) (vStr ""))))
      (strContains markings "dashed_line" ∨ strContains markings "solid_line") ∧ tm = "parking"
    if sideJa "left" ∨ sideJa "right" then "ja"
    else if ¬ (tm_left = "parking" ∨ tm_right = "parking") then "entfällt"
    else "nein"
  else
    let is_parking_right := tm_right = "parking"
    let buffer_right := rowGetD row "buffer_right" vNone
    if ¬ is_parking_right then "entfällt"
    else
      let buffer_right_val : Option PyFloat :=
        if buffer_right ≠ vNone ∧ buffer_right ≠ vStr "" then pyFloatVal buffer_right else none
      match buffer_right_val with
      | some q => if PyFloat.leB ⟨6, 10⟩ q then "ja" else "nein"
      | none => "nein"

/-- `determine_nutz_beschr(row)` (source lines 356–375). -/
def determine_nutz_beschr (row : Row) : String :=
  let traffic_sign := pyStr (rowGetD row "traffic_sign" (vStr ""))
  if ["Gehwegschäden", "Radwegschäden", "Geh- und Radwegschäden"].any
      (fun sign => strContains traffic_sign sign) then
    "Schadensschild/StVO Zusatzeichen (Straßenschäden, Gehwegschäden, Radwegschäden)"
  else "keine"

/-- `CONFIG_REMOVE_TILDA_ATTRIBUTES` from the source. -/
def CONFIG_REMOVE_TILDA_ATTRIBUTES : List String :=
  ["lit", "description", "maxspeed_name_ref", "maxspeed_confidence", "maxspeed_conditional",
   "maxspeed_source", "mapillary_coverage", "mapillary", "bridge", "tunnel",
   "mapillary_traffic_sign", "mapillary_backward", "mapillary_forward", "todos",
   "updated_age", "updated_at", "width_source", "surface_confidence", "surface_source",
   "smoothness_confidence", "smoothness_source", "length", "offset", "_parent_highway"]

/-- The normalized RVN attribute names that the rename step keeps as-is. -/
def rvnAttributes : List String :=
  ["pflicht", "breite", "ofm", "farbe", "protek", "trennstreifen", "nutz_beschr",
   "fuehr", "verkehrsri"]

/-- `assign_prefix_and_remove_unnecessary_attrs(gdf)` on one row: drop
the configured raw columns, then rename every remaining column that is
neither a normalized attribute nor `geometry` to `tilda_<name>`
(source lines 378–401). -/
def assign_prefix_and_remove_unnecessary_attrs (r : Row) : Row :=
  (List.filter (fun e => decide (e.1 ∉ CONFIG_REMOVE_TILDA_ATTRIBUTES)) r).map
    (fun e => if e.1 ∈ rvnAttributes ∨ e.1 = "geometry" then e else ("tilda_" ++ e.1, e.2))

/-- The per-row body of `translate_tilda_attributes`: compute all nine
normalized attributes from the original row and assign them as columns
(source lines 428–469). -/
def setNormalizedAttrs (row : Row) (data_source : String) : Row :=
  let r := rowSet row "verkehrsri" (vStr (determine_verkehrsri row data_source))
  let r := rowSet r "fuehr" (vStr (determine_fuehrung row data_source))
  let r := rowSet r "pflicht" (vBool (determine_pflicht row data_source))
  let r := rowSet r "breite"
    (match parse_width (rowGetD row "width" vNone) with
     | none => vNone
     | some q => vFloat q)
  let r := rowSet r "ofm" (vStr (determine_ofm row))
  let r := rowSet r "farbe" (vBool (determine_farbe row))
  let r := rowSet r "protek" (vStr (determine_protek row))
  let r := rowSet r "trennstreifen" (vStr (determine_trennstreifen row))
  rowSet r "nutz_beschr" (vStr (determine_nutz_beschr row))

/-- `translate_tilda_attributes` restricted to a single row: set the
normalized attributes, then apply the prefix-and-drop step
(source lines 404–485). -/
def translate_tilda_attributes (row : Row) (data_source : String) : Row :=
  assign_prefix_and_remove_unnecessary_attrs (setNormalizedAttrs row data_source)

/-- The normalized attribute set `A` of the specification. -/
def normalizedAttrs : List String :=
  ["fuehr", "ofm", "protek", "pflicht", "breite", "farbe", "verkehrsri",
   "trennstreifen", "nutz_beschr"]

/-- Every raw input column the nine `determine_*` helpers and the width
assignment read from the row being translated. -/
def translatorInputKeys : List String :=
  ["oneway", "oneway_bicycle", "category", "traffic_sign", "surface", "surface_color",
   "width", "separation_left", "separation_right", "separation", "traffic_mode_left",
   "traffic_mode_right", "marking_left", "marking_right", "marking", "buffer_right"]

/-! ### `start_snapping.py` — directional snapping

Geometry is delegated to shapely/numpy: a line geometry is represented by
the bearing `calculate_line_angle` computes for it (degrees in `[0,360)`)
and its length in metres; the distances the code stores in the computed
columns `d` (candidate to segment) and `dist_to_mid` (candidate to
segment midpoint) are carried as fields of the candidate record. -/

/-- A TILDA candidate row as it reaches variant creation: its attribute
columns, its geometry bearing, and the two shapely distances the code
computes for it. -/
structure Candidate where
  attrs : Row
  ang : PyFloat
  d : PyFloat
  distToMid : PyFloat
  deriving DecidableEq, Repr

/-- `candidate.get(key, default)`. -/
def candGetD (c : Candidate) (k : String) (d : Val) : Val := rowGetD c.attrs k d

/-- A network segment (`seg_dict`): attribute columns plus the bearing
and length of its geometry. -/
structure Seg where
  attrs : Row
  ang : PyFloat
  len : PyFloat
  deriving DecidableEq, Repr

/-- `angle_difference(angle1, angle2)` (source lines 398–404): smallest
unsigned difference of two bearings, in `[0,180]` for bearings in
`[0,360)`. -/
def angle_difference (angle1 angle2 : PyFloat) : PyFloat :=
  PyFloat.minF (angle1.sub angle2).absF ((360 : PyFloat).sub (angle1.sub angle2).absF)

/-- `determine_segment_direction(segment_geom, osm_geom)` (source lines
407–426), expressed on the two geometry bearings: `0` when the bearings
differ by less than 90°, else `1`. -/
def determine_segment_direction (segAng osmAng : PyFloat) : ℕ :=
  if (angle_difference segAng osmAng).ltB 90 then 0 else 1

/-- `TILDA_TRAFFIC_SIGN_PRIORITIES` from the source. -/
def TILDA_TRAFFIC_SIGN_PRIORITIES : List (String × ℕ) :=
  [("237", 3), ("240", 3), ("241", 3)]

/-- `TILDA_CATEGORY_PRIORITIES` from the source; a trailing `*` means
prefix match. -/
def TILDA_CATEGORY_PRIORITIES : List (String × ℕ) :=
  [("bicycleRoad*", 6), ("cycleway*", 6), ("footAndCycleway*", 5), ("footwayBicycle*", 4),
   ("sharedBusLaneBikeWithBus", 3), ("sharedBusLaneBusWithBike", 2),
   ("pedestrianAreaBicycleYes", 2), ("sharedMotorVehicleLane", 1)]

/-- `calculate_osm_priority(row)` (source lines 642–673): max of the
traffic-sign priorities and of the category priorities (with `*`
wildcard as prefix match). -/
def calculate_osm_priority (c : Candidate) : ℕ :=
  let traffic_sign := candGetD c "tilda_traffic_sign" (vStr "")
  let p1 : ℕ :=
    if truthy traffic_sign then
      TILDA_TRAFFIC_SIGN_PRIORITIES.foldl
        (fun acc sp => if has_traffic_sign traffic_sign sp.1 then max acc sp.2 else acc) 0
    else 0
  let category := candGetD c "tilda_category" (vStr "")
  if truthy category then
    let category_str := pyStr category
    TILDA_CATEGORY_PRIORITIES.foldl
      (fun acc pp =>
        if strEndsWith pp.1 "*" then
          if strStartsWith category_str (strDropLast pp.1) then max acc pp.2 else acc
        else if category_str = pp.1 then max acc pp.2 else acc) p1
  else p1

/-- The `direction_compatibility` column from the candidate-scoring loop
in `find_best_candidate_for_direction` (source lines 715–744): a one-way
(`Einrichtungsverkehr`) candidate scores 10 when its orientation relative
to the segment equals the requested `ri` and 0 otherwise; every other
candidate scores 1. `ri_value = none` models the Python `ri_value=None`
call of the single-variant special case, which no orientation equals. -/
def direction_compatibility (c : Candidate) (ri_value : Option ℕ) (segAng : PyFloat) : ℕ :=
  if pyEqStr (candGetD c "verkehrsri" (vStr "")) "Einrichtungsverkehr" then
    if some (determine_segment_direction segAng c.ang) = ri_value then 10 else 0
  else 1

/-- The strict "sorts earlier" relation of the
`sort_values(["direction_compatibility", "priority", "dist_to_mid"],
ascending=[False, False, True])` call. -/
def candBetter (ri_value : Option ℕ) (segAng : PyFloat) (x best : Candidate) : Bool :=
  let cx := direction_compatibility x ri_value segAng
  let cb := direction_compatibility best ri_value segAng
  decide (cb < cx) || (decide (cx = cb) &&
    (decide (calculate_osm_priority best < calculate_osm_priority x) ||
      (decide (calculate_osm_priority x = calculate_osm_priority best) &&
        x.distToMid.ltB best.distToMid)))

/-- `find_best_candidate_for_direction(candidates, seg_dict, ri_value,
segment_angle)` (source lines 676–770): the first row of the candidate
set sorted by direction compatibility (descending), priority
(descending) and distance to the segment midpoint (ascending); `none`
on an empty set. Ties keep the earlier row. -/
def find_best_candidate_for_direction (cs : List Candidate) (ri_value : Option ℕ)
    (segAng : PyFloat) : Option Candidate :=
  match cs with
  | [] => none
  | c :: rest =>
    some (rest.foldl (fun best x => if candBetter ri_value segAng x best then x else best) c)

/-- `FINAL_DATASET_SEGMENT_MERGE_ATTRIBUTES` from the source. -/
def FINAL_DATASET_SEGMENT_MERGE_ATTRIBUTES : List String :=
  ["fuehr", "ofm", "protek", "pflicht", "breite", "farbe", "ri", "verkehrsri",
   "trennstreifen", "nutz_beschr", "Kommentar"]

/-- `FINAL_DATASET_SEGMENT_ADDITIONAL_ATTRIBUTES` from the source. -/
def FINAL_DATASET_SEGMENT_ADDITIONAL_ATTRIBUTES : List String :=
  ["data_source", "tilda_id", "tilda_name", "tilda_oneway", "tilda_category",
   "tilda_traffic_sign", "tilda_mapillary", "tilda_mapillary_traffic_sign",
   "tilda_mapillary_backward", "tilda_mapillary_forward"]

/-- `create_base_variant_optimized(seg_dict, ri_value)` (source lines
159–178). The `geometry` entry (always the unchanged segment geometry)
is represented by the `Seg` itself and omitted from the row; `Länge` is
`int(round(...))` of the geometry length. -/
def create_base_variant_optimized (seg : Seg) (ri_value : ℕ) : Row :=
  [("ri", vInt ri_value),
   ("element_nr", rowGetD seg.attrs "element_nr" vNone),
   ("beginnt_bei_vp", rowGetD seg.attrs "beginnt_bei_vp" vNone),
   ("endet_bei_vp", rowGetD seg.attrs "endet_bei_vp" vNone),
   ("Länge", vInt (roundHalfEven seg.len)),
   ("Bezirksnummer", rowGetD seg.attrs "Bezirksnummer" vNone),
   ("strassenname", rowGetD seg.attrs "strassenname" vNone),
   ("data_source", rowGetD seg.attrs "data_source" vNone),
   ("edge_source", rowGetD seg.attrs "edge_source" vNone)]

/-- One step of the merge-attribute transfer loop: copy the attribute
when it is not `ri` and the chosen candidate's row has it
(source lines 822–824). -/
def mergeCopyStep (best : Row) (v : Row) (a : String) : Row :=
  match rowLookup best a with
  | some x => if a ≠ "ri" then rowSet v a x else v
  | none => v

/-- The attribute-transfer loop over the merge attributes. -/
def copyMergeAttrs (best : Row) (v : Row) : Row :=
  FINAL_DATASET_SEGMENT_MERGE_ATTRIBUTES.foldl (mergeCopyStep best) v

/-- One step of the additional-attribute transfer loop
(`variant[attr] = best_osm.get(attr)`, source lines 825–826). -/
def additionalCopyStep (best : Row) (v : Row) (a : String) : Row :=
  rowSet v a (rowGetD best a vNone)

/-- The attribute-transfer loop over the additional reference
attributes. -/
def copyAdditionalAttrs (best : Row) (v : Row) : Row :=
  FINAL_DATASET_SEGMENT_ADDITIONAL_ATTRIBUTES.foldl (additionalCopyStep best) v

/-- One step of the no-candidate merge-attribute fill: set the attribute
to `None` when it is neither `ri` nor `fuehr` and the variant does not
have it yet (source lines 802–804). -/
def noCandFillStep (v : Row) (a : String) : Row :=
  if a ∉ (["ri", "fuehr"] : List String) ∧ rowHas v a = false then rowSet v a vNone else v

/-- One step of the additional-attribute `None` fill
(`variant[attr] = None`, source lines 805–806). -/
def noneFillStep (v : Row) (a : String) : Row := rowSet v a vNone

/-- The no-candidate variant (source lines 798–807): base variant with
`fuehr = "Keine Radinfrastruktur vorhanden"`, every other missing merge
attribute set to `None`, and every additional attribute set to `None`. -/
def noCandidateVariant (seg : Seg) (ri_value : ℕ) : Row :=
  let v := rowSet (create_base_variant_optimized seg ri_value) "fuehr"
    (vStr "Keine Radinfrastruktur vorhanden")
  let v := FINAL_DATASET_SEGMENT_MERGE_ATTRIBUTES.foldl noCandFillStep v
  FINAL_DATASET_SEGMENT_ADDITIONAL_ATTRIBUTES.foldl noneFillStep v

/-- The fallback of the standard case when no best candidate exists
(source lines 852–857): missing merge attributes and all additional
attributes become `None`. -/
def noBestVariantFill (v : Row) : Row :=
  let v := FINAL_DATASET_SEGMENT_MERGE_ATTRIBUTES.foldl
    (fun v a => if rowHas v a = false then rowSet v a vNone else v) v
  FINAL_DATASET_SEGMENT_ADDITIONAL_ATTRIBUTES.foldl noneFillStep v

/-- A variant that copies the chosen candidate's merge and additional
attributes onto the base variant. -/
def variantFromBest (seg : Seg) (ri_value : ℕ) (best : Candidate) : Row :=
  copyAdditionalAttrs best.attrs (copyMergeAttrs best.attrs
    (create_base_variant_optimized seg ri_value))

/-- `create_directional_segment_variants_optimized(seg_dict,
target_candidates, original_candidates)` (source lines 773–861).
`none` models `target_candidates is None`. -/
def create_directional_segment_variants_optimized (seg : Seg)
    (target_candidates : Option (List Candidate)) : List Row :=
  let cs := target_candidates.getD []
  let einrichtung := cs.filter
    (fun c => pyEqStr (candGetD c "verkehrsri" (vStr "")) "Einrichtungsverkehr")
  let dual := cs.filter
    (fun c => pyEqStr (candGetD c "tilda_oneway" (vStr "")) "yes_dual_carriageway")
  if cs.length = 0 then
    [noCandidateVariant seg 0, noCandidateVariant seg 1]
  else if 0 < einrichtung.length ∧ einrichtung.length = cs.length ∧ dual.length = 0 ∧
      einrichtung.all
        (fun c => pyEqStr (candGetD c "fuehr" vNone) "Mischverkehr mit motorisiertem Verkehr") then
    match find_best_candidate_for_direction einrichtung none seg.ang with
    | none => []
    | some best =>
      [variantFromBest seg (determine_segment_direction seg.ang best.ang) best]
  else
    let candidates_to_use :=
      if 0 < dual.length ∧ dual.length = cs.length ∧ dual.all
          (fun c => pyEqStr (candGetD c "verkehrsri" (vStr "")) "Einrichtungsverkehr") then
        dual
      else cs
    [0, 1].map (fun ri_value =>
      match find_best_candidate_for_direction candidates_to_use (some ri_value) seg.ang with
      | some best => variantFromBest seg ri_value best
      | none => noBestVariantFill (create_base_variant_optimized seg ri_value))

/-- The per-segment body of `process_segments_batch` /
`process_segments_batch_parallel` (source lines 201–241 and 251–323):
candidates from the spatial query are distance-filtered with
`d ≤ buffer`; if none survive, the no-candidate variants are emitted;
otherwise the bearing and `angle_diff` columns are computed (the
bearings are the `ang` fields; the `angle_diff` column is never read by
variant creation) and variant creation receives the whole
distance-filtered set. -/
def process_one_segment (seg : Seg) (cands : List Candidate) (buffer : PyFloat) : List Row :=
  if cands.length = 0 then
    create_directional_segment_variants_optimized seg none
  else
    let cand := cands.filter (fun c => c.d.leB buffer)
    if cand.length = 0 then
      create_directional_segment_variants_optimized seg none
    else
      create_directional_segment_variants_optimized seg (some cand)

/-- The batch loop of `process_segments_batch`: each segment is handled
in turn and its variants appended; no segment outcome aborts the batch. -/
def process_segments_batch (segs : List Seg) (cands : List Candidate) (buffer : PyFloat) :
    List Row :=
  (segs.map (fun s => process_one_segment s cands buffer)).flatten

/-- Modelled from the spec (§4.6, candidate search step 3), for
comparison with the code in claim C1: the *oriented candidate set* is
the distance-filtered candidates whose bearing differs from the segment
bearing by at most `maxAngle` (default 50°); best-candidate selection
runs on it, falling back to all distance-filtered candidates when it is
empty. -/
def spec_oriented_process_one_segment (seg : Seg) (cands : List Candidate) (buffer : PyFloat)
    (maxAngle : PyFloat) : List Row :=
  if cands.length = 0 then
    create_directional_segment_variants_optimized seg none
  else
    let cand := cands.filter (fun c => c.d.leB buffer)
    if cand.length = 0 then
      create_directional_segment_variants_optimized seg none
    else
      let oriented := cand.filter (fun c => (angle_difference c.ang seg.ang).leB maxAngle)
      create_directional_segment_variants_optimized seg
        (some (if oriented.length = 0 then cand else oriented))

/-! ### `aggregate_final_model.py` — worst-value aggregation and
district assignment -/

/-- `TRENNSTREIFEN_HIERARCHY` from the source (worst first). -/
def TRENNSTREIFEN_HIERARCHY : List String := ["nein", "ja", "entfällt"]

/-- `find_worst_trennstreifen(values)` (source lines 123–137): drop
missing values, return the first hierarchy entry present, the default
`"entfällt"` on an empty list, or the first value as fallback. -/
def find_worst_trennstreifen (values : List Val) : Val :=
  let vals := values.filter (fun v => ¬ isna v)
  match vals with
  | [] => vStr "entfällt"
  | v0 :: _ =>
    match TRENNSTREIFEN_HIERARCHY.find? (fun w => vals.any (fun v => pyEqStr v w)) with
    | some w => vStr w
    | none => v0

/-- The `worst_trennstreifen` branch of `aggregate_by_worst_case`
(source lines 220–246): the column values are `dropna()`-filtered and
passed to `find_worst_trennstreifen`. -/
def aggregate_by_worst_case_trennstreifen (values : List Val) : Val :=
  find_worst_trennstreifen (values.filter (fun v => ¬ isna v))

/-- Aggregation of the `trennstreifen` column over the components of one
`(element_nr, ri)` group: every component contributes its value and its
geometry length; only the values reach `aggregate_by_worst_case`. -/
def aggregateTrennstreifenGroup (components : List (Val × PyFloat)) : Val :=
  aggregate_by_worst_case_trennstreifen (components.map Prod.fst)

/-- One district row paired with this edge's intersection data:
`gem` is the district's `gem` column (when present), `inter` is `none`
for an empty intersection and `some l` for a non-empty intersection of
length `l` (a point intersection has length 0). The intersection itself
is computed by shapely and is carried here as data. -/
structure DistrictInter where
  gem : Option Val
  inter : Option PyFloat
  deriving DecidableEq, Repr

/-- Python `str(gem)[-2:]`: the last two characters. -/
def lastTwoChars (s : String) : String :=
  String.mk ((s.data.reverse.take 2).reverse)

/-- The district code the loop stores when a district becomes the
current best: the last two characters of `str(gem)` when the `gem`
column exists and is not missing, else `None`
(source lines 452–456). -/
def gemCode (d : DistrictInter) : Option String :=
  match d.gem with
  | some g => if ¬ isna g then some (lastTwoChars (pyStr g)) else none
  | none => none

/-- The per-edge loop of `assign_district_to_edges` (source lines
428–463): running maximum intersection length (starting at 0, strict
improvement required) with the code of the improving district. -/
def assignDistrictLoop :
    List DistrictInter → PyFloat → Option String → PyFloat × Option String
  | [], m, a => (m, a)
  | d :: rest, m, a =>
    match d.inter with
    | none => assignDistrictLoop rest m a
    | some l =>
      if m.ltB l then assignDistrictLoop rest l (gemCode d)
      else assignDistrictLoop rest m a

/-- The `Bezirksnummer` assigned to one edge by
`assign_district_to_edges`, given its intersection data with every
district. -/
def assign_district_to_edge (districts : List DistrictInter) : Option String :=
  (assignDistrictLoop districts 0 none).2

/-- The worst-first rank of a `trennstreifen` value in
`TRENNSTREIFEN_HIERARCHY` (`nein` < `ja` < `entfällt`). -/
def trennRank (u : String) : ℕ :=
  if u = "nein" then 0 else if u = "ja" then 1 else if u = "entfällt" then 2 else 3

/-! ### Basic lemmas about rows -/

theorem rowLookup_append (l1 l2 : Row) (k : String) :
    rowLookup (l1 ++ l2) k =
      match rowLookup l1 k with
      | some v => some v
      | none => rowLookup l2 k := by
  induction l1 with
  | nil => rfl
  | cons e rest ih =>
    by_cases h : e.1 = k
    · simp [rowLookup, h]
    · simpa [rowLookup, h] using ih

theorem rowLookup_filter_ne_self (r : Row) (k : String) :
    rowLookup (List.filter (fun e => decide (e.1 ≠ k)) r) k = none := by
  induction r with
  | nil => rfl
  | cons e rest ih =>
    by_cases h : e.1 = k
    · simpa [List.filter, h] using ih
    · simpa [List.filter, h, rowLookup] using ih

theorem rowLookup_rowSet_self (r : Row) (k : String) (v : Val) :
    rowLookup (rowSet r k v) k = some v := by
  rw [rowSet, rowLookup_append, rowLookup_filter_ne_self]
  simp [rowLookup]

theorem rowLookup_rowSet_ne (r : Row) (k k' : String) (v : Val) (h : k' ≠ k) :
    rowLookup (rowSet r k v) k' = rowLookup r k' := by
  have hkk' : ¬ k = k' := fun hc => h hc.symm
  rw [rowSet, rowLookup_append]
  have hfilter : rowLookup (List.filter (fun e => decide (e.1 ≠ k)) r) k' = rowLookup r k' := by
    induction r with
    | nil => rfl
    | cons e rest ih =>
      by_cases he : e.1 = k
      · have hek' : ¬ e.1 = k' := by rw [he]; exact hkk'
        rw [rowLookup, if_neg hek']
        simpa [List.filter, he] using ih
      · by_cases he' : e.1 = k'
        · simp [List.filter, he, rowLookup, he', h]
        · rw [rowLookup, if_neg he']
          simpa [List.filter, he, rowLookup, he'] using ih
  rw [hfilter]
  cases hr : rowLookup r k' with
  | some v' => rfl
  | none => simp [rowLookup, hkk']

/-! ### Lemmas about the attribute-transfer loops -/

theorem rowLookup_mergeCopyStep_ne (best v : Row) (a k : String) (h : k ≠ a) :
    rowLookup (mergeCopyStep best v a) k = rowLookup v k := by
  rw [mergeCopyStep]
  cases rowLookup best a with
  | none => rfl
  | some x =>
    by_cases ha : a = "ri"
    · simp [ha]
    · simp only [ne_eq, ha, not_false_eq_true, if_true]
      exact rowLookup_rowSet_ne v a k x h

theorem rowLookup_mergeCopyStep_ri (best v : Row) (a : String) :
    rowLookup (mergeCopyStep best v a) "ri" = rowLookup v "ri" := by
  by_cases ha : a = "ri"
  · rw [mergeCopyStep]
    cases rowLookup best a with
    | none => rfl
    | some x => simp [ha]
  · exact rowLookup_mergeCopyStep_ne best v a "ri" (fun hc => ha hc.symm)

theorem rowLookup_foldl_mergeCopy_not_mem (best : Row) (l : List String) (v : Row)
    (k : String) (hk : k ∉ l) :
    rowLookup (l.foldl (mergeCopyStep best) v) k = rowLookup v k := by
  induction l generalizing v with
  | nil => rfl
  | cons a rest ih =>
    have hka : k ≠ a := fun hc => hk (hc ▸ List.mem_cons_self a rest)
    have hkrest : k ∉ rest := fun hc => hk (List.mem_cons_of_mem a hc)
    rw [List.foldl_cons, ih _ hkrest, rowLookup_mergeCopyStep_ne best v a k hka]

theorem rowLookup_foldl_mergeCopy_ri (best : Row) (l : List String) (v : Row) :
    rowLookup (l.foldl (mergeCopyStep best) v) "ri" = rowLookup v "ri" := by
  induction l generalizing v with
  | nil => rfl
  | cons a rest ih =>
    rw [List.foldl_cons, ih _, rowLookup_mergeCopyStep_ri best v a]

theorem rowLookup_foldl_mergeCopy_mem (best : Row) (l : List String) (v : Row)
    (k : String) (x : Val) (hk : k ∈ l) (hnd : l.Nodup) (hri : k ≠ "ri")
    (hx : rowLookup best k = some x) :
    rowLookup (l.foldl (mergeCopyStep best) v) k = some x := by
  induction l generalizing v with
  | nil => exact absurd hk (List.not_mem_nil k)
  | cons a rest ih =>
    rcases List.mem_cons.mp hk with hka | hkrest
    · subst hka
      have hkrest : k ∉ rest := (List.nodup_cons.mp hnd).1
      rw [List.foldl_cons, rowLookup_foldl_mergeCopy_not_mem best rest _ k hkrest]
      rw [mergeCopyStep, hx]
      simp only [ne_eq, hri, not_false_eq_true, if_true]
      exact rowLookup_rowSet_self v k x
    · rw [List.foldl_cons]
      exact ih _ hkrest (List.nodup_cons.mp hnd).2

theorem rowLookup_additionalCopyStep_ne (best v : Row) (a k : String) (h : k ≠ a) :
    rowLookup (additionalCopyStep best v a) k = rowLookup v k :=
  rowLookup_rowSet_ne v a k _ h

theorem rowLookup_foldl_additionalCopy_not_mem (best : Row) (l : List String) (v : Row)
    (k : String) (hk : k ∉ l) :
    rowLookup (l.foldl (additionalCopyStep best) v) k = rowLookup v k := by
  induction l generalizing v with
  | nil => rfl
  | cons a rest ih =>
    have hka : k ≠ a := fun hc => hk (hc ▸ List.mem_cons_self a rest)
    have hkrest : k ∉ rest := fun hc => hk (List.mem_cons_of_mem a hc)
    rw [List.foldl_cons, ih _ hkrest, rowLookup_additionalCopyStep_ne best v a k hka]

theorem rowLookup_foldl_additionalCopy_mem (best : Row) (l : List String) (v : Row)
    (k : String) (hk : k ∈ l) (hnd : l.Nodup) :
    rowLookup (l.foldl (additionalCopyStep best) v) k = some (rowGetD best k vNone) := by
  induction l generalizing v with
  | nil => exact absurd hk (List.not_mem_nil k)
  | cons a rest ih =>
    rcases List.mem_cons.mp hk with hka | hkrest
    · subst hka
      have hkrest : k ∉ rest := (List.nodup_cons.mp hnd).1
      rw [List.foldl_cons, rowLookup_foldl_additionalCopy_not_mem best rest _ k hkrest]
      exact rowLookup_rowSet_self v k _
    · rw [List.foldl_cons]
      exact ih _ hkrest (List.nodup_cons.mp hnd).2

theorem rowLookup_noCandFillStep_ne (v : Row) (a k : String) (h : k ≠ a) :
    rowLookup (noCandFillStep v a) k = rowLookup v k := by
  rw [noCandFillStep]
  split
  · exact rowLookup_rowSet_ne v a k vNone h
  · rfl

theorem rowLookup_noCandFillStep_keep (v : Row) (a k : String)
    (hk : k ∈ (["ri", "fuehr"] : List String)) :
    rowLookup (noCandFillStep v a) k = rowLookup v k := by
  by_cases hka : k = a
  · rw [noCandFillStep, if_neg]
    intro hc
    exact hc.1 (hka ▸ hk)
  · exact rowLookup_noCandFillStep_ne v a k hka

theorem rowLookup_foldl_noCandFill_keep (l : List String) (v : Row) (k : String)
    (hk : k ∈ (["ri", "fuehr"] : List String)) :
    rowLookup (l.foldl noCandFillStep v) k = rowLookup v k := by
  induction l generalizing v with
  | nil => rfl
  | cons a rest ih =>
    rw [List.foldl_cons, ih _, rowLookup_noCandFillStep_keep v a k hk]

theorem rowLookup_foldl_noCandFill_not_mem (l : List String) (v : Row) (k : String)
    (hk : k ∉ l) :
    rowLookup (l.foldl noCandFillStep v) k = rowLookup v k := by
  induction l generalizing v with
  | nil => rfl
  | cons a rest ih =>
    have hka : k ≠ a := fun hc => hk (hc ▸ List.mem_cons_self a rest)
    have hkrest : k ∉ rest := fun hc => hk (List.mem_cons_of_mem a hc)
    rw [List.foldl_cons, ih _ hkrest, rowLookup_noCandFillStep_ne v a k hka]

theorem rowLookup_foldl_noCandFill_mem_none (l : List String) (v : Row) (a : String)
    (ha : a ∈ l) (hnd : l.Nodup) (hrf : a ∉ (["ri", "fuehr"] : List String))
    (h0 : rowLookup v a = none) :
    rowLookup (l.foldl noCandFillStep v) a = some vNone := by
  induction l generalizing v with
  | nil => exact absurd ha (List.not_mem_nil a)
  | cons b rest ih =>
    rcases List.mem_cons.mp ha with hab | harest
    · subst hab
      have harest : a ∉ rest := (List.nodup_cons.mp hnd).1
      rw [List.foldl_cons, rowLookup_foldl_noCandFill_not_mem rest _ a harest]
      rw [noCandFillStep, if_pos ⟨hrf, by rw [rowHas, h0]; rfl⟩]
      exact rowLookup_rowSet_self v a vNone
    · rw [List.foldl_cons]
      have hab : a ≠ b := by
        intro hc
        exact (List.nodup_cons.mp hnd).1 (hc ▸ harest)
      refine ih _ harest (List.nodup_cons.mp hnd).2 ?_
      rw [rowLookup_noCandFillStep_ne v b a hab]
      exact h0

theorem rowLookup_foldl_noneFill_not_mem (l : List String) (v : Row) (k : String)
    (hk : k ∉ l) :
    rowLookup (l.foldl noneFillStep v) k = rowLookup v k := by
  induction l generalizing v with
  | nil => rfl
  | cons a rest ih =>
    have hka : k ≠ a := fun hc => hk (hc ▸ List.mem_cons_self a rest)
    have hkrest : k ∉ rest := fun hc => hk (List.mem_cons_of_mem a hc)
    rw [List.foldl_cons, ih _ hkrest, noneFillStep, rowLookup_rowSet_ne v a k vNone hka]

/-- `ri` lookup on the no-candidate variant. -/
theorem rowLookup_noCandidateVariant_ri (seg : Seg) (ri_value : ℕ) :
    rowLookup (noCandidateVariant seg ri_value) "ri" = some (vInt ri_value) := by
  rw [noCandidateVariant]
  rw [rowLookup_foldl_noneFill_not_mem _ _ _ (by decide)]
  rw [rowLookup_foldl_noCandFill_keep _ _ _ (by decide)]
  rw [rowLookup_rowSet_ne _ _ _ _ (by decide)]
  rfl

/-- `fuehr` lookup on the no-candidate variant. -/
theorem rowLookup_noCandidateVariant_fuehr (seg : Seg) (ri_value : ℕ) :
    rowLookup (noCandidateVariant seg ri_value) "fuehr" =
      some (vStr "Keine Radinfrastruktur vorhanden") := by
  rw [noCandidateVariant]
  rw [rowLookup_foldl_noneFill_not_mem _ _ _ (by decide)]
  rw [rowLookup_foldl_noCandFill_keep _ _ _ (by decide)]
  exact rowLookup_rowSet_self _ _ _

/-- Any merge attribute other than `ri` and `fuehr` that the base
variant does not carry is `None` on the no-candidate variant. -/
theorem rowLookup_noCandidateVariant_merge_none (seg : Seg) (ri_value : ℕ) (a : String)
    (ha : a ∈ FINAL_DATASET_SEGMENT_MERGE_ATTRIBUTES)
    (hrf : a ∉ (["ri", "fuehr"] : List String))
    (hadd : a ∉ FINAL_DATASET_SEGMENT_ADDITIONAL_ATTRIBUTES)
    (h0 : rowLookup (create_base_variant_optimized seg ri_value) a = none) :
    rowLookup (noCandidateVariant seg ri_value) a = some vNone := by
  rw [noCandidateVariant]
  rw [rowLookup_foldl_noneFill_not_mem _ _ _ hadd]
  refine rowLookup_foldl_noCandFill_mem_none _ _ _ ha (by decide) hrf ?_
  have hne : a ≠ "fuehr" := fun hc => hrf (by rw [hc]; decide)
  rw [rowLookup_rowSet_ne _ _ _ _ hne]
  exact h0

/-- `ri` lookup on a variant built from a chosen candidate: the copy
loops never touch `ri`, so it is the base variant's value. -/
theorem rowLookup_variantFromBest_ri (seg : Seg) (ri_value : ℕ) (best : Candidate) :
    rowLookup (variantFromBest seg ri_value best) "ri" = some (vInt ri_value) := by
  rw [variantFromBest, copyAdditionalAttrs, copyMergeAttrs]
  rw [rowLookup_foldl_additionalCopy_not_mem _ _ _ "ri" (by decide)]
  rw [rowLookup_foldl_mergeCopy_ri]
  rfl

/-- Merge-attribute lookup on a variant built from a chosen candidate:
every merge attribute other than `ri` that the candidate's row has is
copied verbatim. -/
theorem rowLookup_variantFromBest_merge (seg : Seg) (ri_value : ℕ) (best : Candidate)
    (a : String) (x : Val) (ha : a ∈ FINAL_DATASET_SEGMENT_MERGE_ATTRIBUTES)
    (hri : a ≠ "ri") (hx : rowLookup best.attrs a = some x) :
    rowLookup (variantFromBest seg ri_value best) a = some x := by
  have hadd : a ∉ FINAL_DATASET_SEGMENT_ADDITIONAL_ATTRIBUTES := by
    fin_cases ha <;> decide
  rw [variantFromBest, copyAdditionalAttrs, copyMergeAttrs]
  rw [rowLookup_foldl_additionalCopy_not_mem _ _ _ a hadd]
  exact rowLookup_foldl_mergeCopy_mem _ _ _ a x ha (by decide) hri hx

end Radnetz

namespace Radnetz

open Val

/-! ### Claim C9 — `parse_width` -/

theorem roundHalfEven_tenths (k : ℤ) : roundHalfEven ⟨k * 10, 10⟩ = k := by
  have hfl : PyFloat.floorI ⟨k * 10, 10⟩ = k := by
    rw [PyFloat.floorI]
    exact_mod_cast Int.mul_fdiv_cancel k (by norm_num)
  have hnum : ((⟨k * 10, 10⟩ : PyFloat).sub (PyFloat.ofInt k)).num = 0 := by
    simp only [PyFloat.sub, PyFloat.ofInt]
    push_cast
    ring
  simp only [roundHalfEven, hfl]
  rw [if_pos]
  rw [PyFloat.ltB, hnum]
  simp only [PyFloat.sub, PyFloat.ofInt, decide_eq_true_eq]
  norm_num

theorem pyRound1_idem (x : PyFloat) : pyRound1 (pyRound1 x) = pyRound1 x := by
  rw [pyRound1, pyRound1]
  have : (⟨roundHalfEven x.mulTen, 10⟩ : PyFloat).mulTen = ⟨roundHalfEven x.mulTen * 10, 10⟩ :=
    rfl
  rw [this, roundHalfEven_tenths]

/-- C9: `parse_width` is total over the modelled scalar domain (it is a
Lean function, mirroring the `try/except` guard of the source): every
falsy input — in particular a numeric width of 0 — and every missing
value yields `none`, a string whose unit-stripped form does not parse as
a number yields `none`, and any returned value is already rounded to one
decimal place. -/
theorem parse_width_total_and_none_cases (v : Val) (s : String) :
    (truthy v = false → parse_width v = none) ∧
    (isna v = true → parse_width v = none) ∧
    parse_width (vInt 0) = none ∧
    parse_width (vFloat 0) = none ∧
    (parseFloatQ (stripWidthUnits s) = none → parse_width (vStr s) = none) ∧
    (∀ q, parse_width v = some q → pyRound1 q = q) := by
  refine ⟨?_, ?_, by decide, by decide, ?_, ?_⟩
  · intro h
    rw [parse_width.eq_def, if_pos]
    rw [h]
    rfl
  · intro h
    rw [parse_width.eq_def, if_pos]
    rw [h]
    simp
  · intro h
    by_cases hc : (¬ truthy (vStr s) || isna (vStr s)) = true
    · rw [parse_width, if_pos hc]
    · rw [parse_width.eq_def, if_neg hc]
      simp only [h, Option.map_none']
  · intro q hq
    by_cases hc : (¬ truthy v || isna v) = true
    · rw [parse_width.eq_def, if_pos hc] at hq
      exact absurd hq (by simp)
    · rw [parse_width.eq_def, if_neg hc] at hq
      cases v with
      | vStr t =>
        simp only [Option.map_eq_some'] at hq
        obtain ⟨x, _, hx⟩ := hq
        rw [← hx]
        exact pyRound1_idem x
      | vInt z =>
        simp only [Option.some_inj] at hq
        rw [← hq]
        exact pyRound1_idem _
      | vFloat x =>
        simp only [Option.some_inj] at hq
        rw [← hq]
        exact pyRound1_idem _
      | vBool b =>
        simp only [Option.some_inj] at hq
        rw [← hq]
        exact pyRound1_idem _
      | vNone => exact absurd hq (by simp)
      | vNaN => exact absurd hq (by simp)

/-- Witness for C9 at concrete inputs: the unparsable string `"abc"`,
the falsy numeric width `0`, and a parsed value. -/
theorem parse_width_total_and_none_cases_witness :
    parse_width (vStr "abc") = none ∧ parse_width (vInt 0) = none ∧
    (parseFloatQ (stripWidthUnits "abc") = none) ∧
    pyRound1 ⟨25, 10⟩ = ⟨25, 10⟩ := by
  refine ⟨(parse_width_total_and_none_cases (vStr "abc") "abc").2.2.2.2.1 (by decide),
    (parse_width_total_and_none_cases (vInt 0) "abc").2.2.1, by decide,
    (parse_width_total_and_none_cases (vStr "2.5m") "x").2.2.2.2.2 ⟨25, 10⟩ (by decide)⟩

/-! ### Claim C10 — direction compatibility of non-one-way candidates -/

/-- C10: in per-direction candidate scoring, a candidate whose
`verkehrsri` is anything other than exactly `"Einrichtungsverkehr"` —
`"Zweirichtungsverkehr"`, any `"[TODO] …"` diagnostic, a missing value —
gets `direction_compatibility = 1` for every requested direction, so it
is usable for both directions. -/
theorem direction_compatibility_non_einrichtung_is_one (c : Candidate) (segAng : PyFloat)
    (h : pyEqStr (candGetD c "verkehrsri" (vStr "")) "Einrichtungsverkehr" = false) :
    direction_compatibility c (some 0) segAng = 1 ∧
    direction_compatibility c (some 1) segAng = 1 ∧
    ∀ ri_value, direction_compatibility c ri_value segAng = 1 := by
  have key : ∀ ri_value, direction_compatibility c ri_value segAng = 1 := by
    intro ri_value
    rw [direction_compatibility, if_neg]
    rw [h]
    simp
  exact ⟨key _, key _, key⟩

/-- Witness for C10: a candidate carrying the `"[TODO] Fehlender Wert"`
diagnostic is scored 1 for both directions. -/
theorem direction_compatibility_non_einrichtung_is_one_witness :
    direction_compatibility ⟨[("verkehrsri", vStr "[TODO] Fehlender Wert")], 0, 1, 1⟩
        (some 0) 0 = 1 ∧
    direction_compatibility ⟨[("verkehrsri", vStr "[TODO] Fehlender Wert")], 0, 1, 1⟩
        (some 1) 0 = 1 := by
  have h := direction_compatibility_non_einrichtung_is_one
    ⟨[("verkehrsri", vStr "[TODO] Fehlender Wert")], 0, 1, 1⟩ 0 (by decide)
  exact ⟨h.1, h.2.1⟩

end Radnetz

namespace Radnetz

open Val

/-! ### Claim C7 — worst-wins aggregation of `trennstreifen` -/

theorem pyEqStr_true_iff (v : Val) (s : String) : pyEqStr v s = true ↔ v = vStr s := by
  cases v <;> simp [pyEqStr]

theorem filter_idem {α : Type} (p : α → Bool) (l : List α) :
    (l.filter p).filter p = l.filter p := by
  induction l with
  | nil => rfl
  | cons a rest ih =>
    by_cases h : p a = true
    · simp [List.filter, h, ih]
    · simp only [Bool.not_eq_true] at h
      simp [List.filter, h, ih]

theorem trennRank_pos (u : String) (h : u ≠ "nein") : 1 ≤ trennRank u := by
  rw [trennRank, if_neg h]
  split <;> norm_num
  split <;> norm_num

theorem trennRank_ge_two (u : String) (h1 : u ≠ "nein") (h2 : u ≠ "ja") : 2 ≤ trennRank u := by
  rw [trennRank, if_neg h1, if_neg h2]
  split <;> norm_num

/-- `find_worst_trennstreifen` on an already-`dropna`-filtered list is
the hierarchy scan. -/
theorem find_worst_trennstreifen_spec (M : List Val)
    (hfix : M.filter (fun v => ¬ isna v) = M) :
    find_worst_trennstreifen M =
      (if M.any (fun v => pyEqStr v "nein") then vStr "nein"
       else if M.any (fun v => pyEqStr v "ja") then vStr "ja"
       else if M.any (fun v => pyEqStr v "entfällt") then vStr "entfällt"
       else match M with | [] => vStr "entfällt" | v0 :: _ => v0) := by
  rw [find_worst_trennstreifen.eq_def]
  simp only [TRENNSTREIFEN_HIERARCHY, hfix]
  cases M with
  | nil => simp
  | cons v0 rest =>
    by_cases b1 : (v0 :: rest).any (fun v => pyEqStr v "nein") = true
    · simp [List.find?, b1]
    · simp only [Bool.not_eq_true] at b1
      by_cases b2 : (v0 :: rest).any (fun v => pyEqStr v "ja") = true
      · simp [List.find?, b1, b2]
      · simp only [Bool.not_eq_true] at b2
        by_cases b3 : (v0 :: rest).any (fun v => pyEqStr v "entfällt") = true
        · simp [List.find?, b1, b2, b3]
        · simp only [Bool.not_eq_true] at b3
          simp [List.find?, b1, b2, b3]

/-- C7: over a group of components carrying a `trennstreifen` value and a
geometry length, the aggregation (1) depends only on the values, never on
the lengths, (2) returns the worst non-missing value under the order
`nein > ja > entfällt` whenever all non-missing values are in the
hierarchy and at least one exists, and (3) on the S5 instance
`{ja: 40 m, nein: 30 m, entfällt: 80 m}` returns `nein`. -/
theorem trennstreifen_worst_wins (components : List (Val × PyFloat))
    (hnn : (components.map Prod.fst).any (fun v => ¬ isna v) = true)
    (hvals : ∀ v ∈ components.map Prod.fst, isna v = false →
      v = vStr "nein" ∨ v = vStr "ja" ∨ v = vStr "entfällt") :
    (∀ components2 : List (Val × PyFloat),
        components2.map Prod.fst = components.map Prod.fst →
        aggregateTrennstreifenGroup components2 = aggregateTrennstreifenGroup components) ∧
    (∃ w, aggregateTrennstreifenGroup components = vStr w ∧
      vStr w ∈ components.map Prod.fst ∧
      ∀ u, vStr u ∈ components.map Prod.fst → trennRank w ≤ trennRank u) ∧
    aggregateTrennstreifenGroup [(vStr "ja", 40), (vStr "nein", 30), (vStr "entfällt", 80)] =
      vStr "nein" := by
  refine ⟨?_, ?_, by decide⟩
  · intro components2 h
    rw [aggregateTrennstreifenGroup, aggregateTrennstreifenGroup, h]
  · have hLfix : ((components.map Prod.fst).filter (fun v => ¬ isna v)).filter
        (fun v => ¬ isna v) = (components.map Prod.fst).filter (fun v => ¬ isna v) :=
      filter_idem _ _
    set values := components.map Prod.fst with hvaldef
    set L := values.filter (fun v => ¬ isna v) with hLdef
    have hagg : aggregateTrennstreifenGroup components = find_worst_trennstreifen L := by
      rw [aggregateTrennstreifenGroup, aggregate_by_worst_case_trennstreifen]
    have hmemL : ∀ v, v ∈ L → v ∈ values := fun v hv => List.mem_of_mem_filter hv
    have hLne : L ≠ [] := by
      obtain ⟨v, hvmem, hvp⟩ := List.any_eq_true.mp hnn
      exact List.ne_nil_of_mem (List.mem_filter.mpr ⟨hvmem, hvp⟩)
    have hmem_values_of_any : ∀ w : String, L.any (fun v => pyEqStr v w) = true →
        vStr w ∈ values := by
      intro w hw
      obtain ⟨v, hv, hp⟩ := List.any_eq_true.mp hw
      exact (pyEqStr_true_iff v w).mp hp ▸ hmemL v hv
    have hany_of_mem : ∀ w : String, vStr w ∈ values →
        L.any (fun v => pyEqStr v w) = true := by
      intro w hw
      refine List.any_eq_true.mpr ⟨vStr w, ?_, by simp [pyEqStr]⟩
      exact List.mem_filter.mpr ⟨hw, by simp [isna]⟩
    rw [hagg, find_worst_trennstreifen_spec L hLfix]
    by_cases b1 : L.any (fun v => pyEqStr v "nein") = true
    · rw [if_pos b1]
      exact ⟨"nein", rfl, hmem_values_of_any _ b1, fun u _ => Nat.zero_le _⟩
    · simp only [Bool.not_eq_true] at b1
      rw [if_neg (by simp [b1])]
      by_cases b2 : L.any (fun v => pyEqStr v "ja") = true
      · rw [if_pos b2]
        refine ⟨"ja", rfl, hmem_values_of_any _ b2, fun u hu => ?_⟩
        have hune : u ≠ "nein" := by
          intro hc
          rw [hc] at hu
          have := hany_of_mem _ hu
          rw [this] at b1
          simp at b1
        exact trennRank_pos u hune
      · simp only [Bool.not_eq_true] at b2
        rw [if_neg (by simp [b2])]
        by_cases b3 : L.any (fun v => pyEqStr v "entfällt") = true
        · rw [if_pos b3]
          refine ⟨"entfällt", rfl, hmem_values_of_any _ b3, fun u hu => ?_⟩
          have hn : u ≠ "nein" := by
            intro hc; rw [hc] at hu
            have := hany_of_mem _ hu
            rw [this] at b1
            simp at b1
          have hj : u ≠ "ja" := by
            intro hc; rw [hc] at hu
            have := hany_of_mem _ hu
            rw [this] at b2
            simp at b2
          exact trennRank_ge_two u hn hj
        · exfalso
          cases hc : L with
          | nil => exact hLne hc
          | cons v0 rest =>
            have hv0L : v0 ∈ L := hc ▸ List.mem_cons_self v0 rest
            have hv0na : isna v0 = false := by
              have := (List.mem_filter.mp (hLdef ▸ hv0L)).2
              simpa using this
            simp only [Bool.not_eq_true] at b3
            rcases hvals v0 (hmemL v0 hv0L) hv0na with h | h | h
            · have hx : L.any (fun v => pyEqStr v "nein") = true :=
                List.any_eq_true.mpr ⟨v0, hv0L, by rw [h]; decide⟩
              rw [hx] at b1
              simp at b1
            · have hx : L.any (fun v => pyEqStr v "ja") = true :=
                List.any_eq_true.mpr ⟨v0, hv0L, by rw [h]; decide⟩
              rw [hx] at b2
              simp at b2
            · have hx : L.any (fun v => pyEqStr v "entfällt") = true :=
                List.any_eq_true.mpr ⟨v0, hv0L, by rw [h]; decide⟩
              rw [hx] at b3
              simp at b3

/-- Witness for C7: the S5 instance, run through the theorem. -/
theorem trennstreifen_worst_wins_witness :
    aggregateTrennstreifenGroup [(vStr "ja", 40), (vStr "nein", 30), (vStr "entfällt", 80)] =
      vStr "nein" ∧
    ∃ w, aggregateTrennstreifenGroup
        [(vStr "ja", 40), (vStr "nein", 30), (vStr "entfällt", 80)] = vStr w ∧
      vStr w ∈ [vStr "ja", vStr "nein", vStr "entfällt"] ∧
      ∀ u, vStr u ∈ [vStr "ja", vStr "nein", vStr "entfällt"] → trennRank w ≤ trennRank u := by
  have h := trennstreifen_worst_wins
    [(vStr "ja", 40), (vStr "nein", 30), (vStr "entfällt", 80)] (by decide) (by decide)
  exact ⟨h.2.2, h.2.1⟩

/-! ### Claim C4 — the surface mapping of `determine_ofm` -/

theorem tableLookup_mem (l : List (String × String)) (s out : String)
    (h : tableLookup l s = some out) : s ∈ l.map Prod.fst := by
  induction l with
  | nil => exact absurd h (by simp [tableLookup])
  | cons e rest ih =>
    rw [tableLookup] at h
    by_cases he : e.1 = s
    · exact List.mem_map.mpr ⟨e, List.mem_cons_self e rest, he⟩
    · rw [if_neg he] at h
      exact List.mem_cons_of_mem _ (ih h)

theorem tableLookup_eq_none (l : List (String × String)) (s : String)
    (h : s ∉ l.map Prod.fst) : tableLookup l s = none := by
  induction l with
  | nil => rfl
  | cons e rest ih =>
    rw [tableLookup]
    have he : e.1 ≠ s := fun hc => h (List.mem_map.mpr ⟨e, List.mem_cons_self e rest, hc⟩)
    rw [if_neg he]
    exact ih (fun hc => h (List.mem_cons_of_mem _ hc))

/-- C4 (amended): full characterisation of `determine_ofm` on the
normalised surface key. Table values map per the table without a
warning; the string value `"none"` — and a `None`-valued surface, whose
`str()` form lower-cases to `"none"` — map to the
`"[TODO] Oberfläche Fehlt"` diagnostic; an absent surface column, an
empty string or a `NaN` return `"NICHT-GEFUNDEN"` *without* a warning;
the four special values map to `"[TODO] Nicht zuordenbar"`; every other
value logs a warning and returns `"NICHT-GEFUNDEN"`. -/
theorem determine_ofm_closed_mapping (row : Row) :
    (∀ out, tableLookup MAPPING_OFM_SURFACE (ofmSurfaceKey row) = some out →
      determine_ofm row = out ∧ determine_ofm_warns row = false) ∧
    (ofmSurfaceKey row = "none" →
      determine_ofm row = "[TODO] Oberfläche Fehlt" ∧ determine_ofm_warns row = false) ∧
    (rowGetD row "surface" (vStr "") = vNone →
      determine_ofm row = "[TODO] Oberfläche Fehlt" ∧ determine_ofm_warns row = false) ∧
    (ofmSurfaceKey row = "" ∨ ofmSurfaceKey row = "nan" →
      determine_ofm row = "NICHT-GEFUNDEN" ∧ determine_ofm_warns row = false) ∧
    (ofmSurfaceKey row = "grass_paver" ∨ ofmSurfaceKey row = "wood" ∨
        ofmSurfaceKey row = "metal" ∨ ofmSurfaceKey row = "paved" →
      determine_ofm row = "[TODO] Nicht zuordenbar" ∧ determine_ofm_warns row = false) ∧
    (ofmSurfaceKey row ∉ MAPPING_OFM_SURFACE.map Prod.fst →
      ofmSurfaceKey row ∉ ["", "nan", "grass_paver", "wood", "metal", "paved", "none"] →
      determine_ofm row = "NICHT-GEFUNDEN" ∧ determine_ofm_warns row = true) := by
  have hnone : ofmSurfaceKey row = "none" →
      determine_ofm row = "[TODO] Oberfläche Fehlt" ∧ determine_ofm_warns row = false := by
    intro h
    rw [determine_ofm, determine_ofm_warns, h]
    decide
  refine ⟨?_, hnone, ?_, ?_, ?_, ?_⟩
  · intro out h
    have hkeys : ∀ x ∈ MAPPING_OFM_SURFACE.map Prod.fst, ¬ (x = "" ∨ x = "nan") := by decide
    have hne := hkeys _ (tableLookup_mem _ _ _ h)
    rw [determine_ofm, determine_ofm_warns, if_neg hne, if_neg hne, h]
    exact ⟨rfl, by trivial⟩
  · intro h
    apply hnone
    rw [ofmSurfaceKey, h]
    decide
  · intro h
    rw [determine_ofm, determine_ofm_warns, if_pos h, if_pos h]
    exact ⟨rfl, by trivial⟩
  · intro h
    have hget : tableLookup MAPPING_OFM_SURFACE (ofmSurfaceKey row) = none := by
      apply tableLookup_eq_none
      intro hc
      have hkeys : ∀ x ∈ MAPPING_OFM_SURFACE.map Prod.fst,
          ¬ (x = "grass_paver" ∨ x = "wood" ∨ x = "metal" ∨ x = "paved") := by decide
      exact hkeys _ hc h
    have hnn : ¬ (ofmSurfaceKey row = "" ∨ ofmSurfaceKey row = "nan") := by
      rcases h with h | h | h | h <;> rw [h] <;> decide
    have hD : ofmSurfaceKey row = "grass_paver" ∨ ofmSurfaceKey row = "wood" ∨
        ofmSurfaceKey row = "metal" ∨ ofmSurfaceKey row = "paved" ∨
        ofmSurfaceKey row = "none" := by
      rcases h with h | h | h | h
      · exact Or.inl h
      · exact Or.inr (Or.inl h)
      · exact Or.inr (Or.inr (Or.inl h))
      · exact Or.inr (Or.inr (Or.inr (Or.inl h)))
    rw [determine_ofm, determine_ofm_warns, if_neg hnn, if_neg hnn, hget]
    simp only [if_pos h]
    exact ⟨by trivial, by simp [hD]⟩
  · intro hmem hspec
    have h1 : ofmSurfaceKey row ≠ "" := fun hc => hspec (by rw [hc]; decide)
    have h2 : ofmSurfaceKey row ≠ "nan" := fun hc => hspec (by rw [hc]; decide)
    have h3 : ofmSurfaceKey row ≠ "grass_paver" := fun hc => hspec (by rw [hc]; decide)
    have h4 : ofmSurfaceKey row ≠ "wood" := fun hc => hspec (by rw [hc]; decide)
    have h5 : ofmSurfaceKey row ≠ "metal" := fun hc => hspec (by rw [hc]; decide)
    have h6 : ofmSurfaceKey row ≠ "paved" := fun hc => hspec (by rw [hc]; decide)
    have h7 : ofmSurfaceKey row ≠ "none" := fun hc => hspec (by rw [hc]; decide)
    have hget : tableLookup MAPPING_OFM_SURFACE (ofmSurfaceKey row) = none :=
      tableLookup_eq_none _ _ hmem
    have hnn : ¬ (ofmSurfaceKey row = "" ∨ ofmSurfaceKey row = "nan") := by
      intro hc
      rcases hc with hc | hc
      · exact h1 hc
      · exact h2 hc
    have hsp : ¬ (ofmSurfaceKey row = "grass_paver" ∨ ofmSurfaceKey row = "wood" ∨
        ofmSurfaceKey row = "metal" ∨ ofmSurfaceKey row = "paved") := by
      intro hc
      rcases hc with hc | hc | hc | hc
      · exact h3 hc
      · exact h4 hc
      · exact h5 hc
      · exact h6 hc
    rw [determine_ofm, determine_ofm_warns, if_neg hnn, if_neg hnn, hget]
    simp only [if_neg hsp, if_neg h7]
    refine ⟨by trivial, ?_⟩
    simp [h3, h4, h5, h6, h7]

/-- Counterexample for C4 as stated: missing surface representations —
an absent `surface` column or a `NaN` value — return `"NICHT-GEFUNDEN"`
(and no warning), not the `"[TODO] Oberfläche Fehlt"` diagnostic the
claim assigns to missing values. -/
theorem determine_ofm_missing_counterexample :
    determine_ofm [] = "NICHT-GEFUNDEN" ∧
    determine_ofm [("surface", vNaN)] = "NICHT-GEFUNDEN" ∧
    determine_ofm_warns [("surface", vNaN)] = false ∧
    "NICHT-GEFUNDEN" ≠ "[TODO] Oberfläche Fehlt" ∧
    determine_ofm [("surface", vNone)] = "[TODO] Oberfläche Fehlt" ∧
    determine_ofm [("surface", vStr "none")] = "[TODO] Oberfläche Fehlt" := by
  decide

/-- Witness for C4: instances of the amended characterisation — a table
value, the string `"none"`, and an unknown value that warns. -/
theorem determine_ofm_closed_mapping_witness :
    determine_ofm [("surface", vStr "asphalt")] = "Asphalt" ∧
    determine_ofm [("surface", vStr "none")] = "[TODO] Oberfläche Fehlt" ∧
    (determine_ofm [("surface", vStr "lava")] = "NICHT-GEFUNDEN" ∧
      determine_ofm_warns [("surface", vStr "lava")] = true) := by
  refine ⟨((determine_ofm_closed_mapping [("surface", vStr "asphalt")]).1 "Asphalt"
      (by decide)).1,
    ((determine_ofm_closed_mapping [("surface", vStr "none")]).2.1 (by decide)).1,
    (determine_ofm_closed_mapping [("surface", vStr "lava")]).2.2.2.2.2 (by decide) (by decide)⟩

/-! ### Claim C8 — district assignment -/

theorem adLoop_append (l1 l2 : List DistrictInter) (m : PyFloat) (a : Option String) :
    assignDistrictLoop (l1 ++ l2) m a =
      assignDistrictLoop l2 (assignDistrictLoop l1 m a).1 (assignDistrictLoop l1 m a).2 := by
  induction l1 generalizing m a with
  | nil => rfl
  | cons d rest ih =>
    cases hd : d.inter with
    | none => simp [assignDistrictLoop, hd, ih]
    | some l =>
      by_cases hlt : m.ltB l = true
      · simp [assignDistrictLoop, hd, hlt, ih]
      · simp only [Bool.not_eq_true] at hlt
        simp [assignDistrictLoop, hd, hlt, ih]

theorem adLoop_no_improvement (l : List DistrictInter) (m : PyFloat) (a : Option String)
    (h : ∀ d ∈ l, ∀ x, d.inter = some x → m.ltB x = false) :
    assignDistrictLoop l m a = (m, a) := by
  induction l with
  | nil => rfl
  | cons d rest ih =>
    cases hd : d.inter with
    | none =>
      simp only [assignDistrictLoop, hd]
      exact ih (fun d' hd' => h d' (List.mem_cons_of_mem _ hd'))
    | some x =>
      have hx := h d (List.mem_cons_self d rest) x hd
      simp only [assignDistrictLoop, hd, hx]
      simp only [Bool.false_eq_true, if_false]
      exact ih (fun d' hd' => h d' (List.mem_cons_of_mem _ hd'))

theorem adLoop_max_stays_below (l : List DistrictInter) (M m : PyFloat) (a : Option String)
    (hm : m.ltB M = true) (h : ∀ d ∈ l, ∀ x, d.inter = some x → x.ltB M = true) :
    (assignDistrictLoop l m a).1.ltB M = true := by
  induction l generalizing m a with
  | nil => exact hm
  | cons d rest ih =>
    cases hd : d.inter with
    | none =>
      simp only [assignDistrictLoop, hd]
      exact ih m a hm (fun d' hd' => h d' (List.mem_cons_of_mem _ hd'))
    | some x =>
      have hx := h d (List.mem_cons_self d rest) x hd
      by_cases hlt : m.ltB x = true
      · simp only [assignDistrictLoop, hd, hlt, if_true]
        exact ih x _ hx (fun d' hd' => h d' (List.mem_cons_of_mem _ hd'))
      · simp only [Bool.not_eq_true] at hlt
        simp only [assignDistrictLoop, hd, hlt, Bool.false_eq_true, if_false]
        exact ih m a hm (fun d' hd' => h d' (List.mem_cons_of_mem _ hd'))

/-- C8 (amended): when a district has a positive-length intersection
with the edge, strictly longer than every intersection before it in the
district list and at least as long as every one after it, and its `gem`
column is present and non-missing, the edge is assigned that district's
two-digit code (the last two characters of `str(gem)`). Without such a
district — in particular when every intersection has zero length, e.g. a
point touch — the `Bezirksnummer` stays `None`. -/
theorem district_assignment_longest_positive (pre post : List DistrictInter)
    (dstar : DistrictInter) (M : PyFloat) (g : Val)
    (hM : dstar.inter = some M)
    (hgem : dstar.gem = some g) (hna : isna g = false)
    (hpos : PyFloat.ltB 0 M = true)
    (hpre : ∀ d ∈ pre, ∀ x, d.inter = some x → x.ltB M = true)
    (hpost : ∀ d ∈ post, ∀ x, d.inter = some x → M.ltB x = false) :
    assign_district_to_edge (pre ++ dstar :: post) = some (lastTwoChars (pyStr g)) := by
  rw [assign_district_to_edge, adLoop_append]
  have hm1 : (assignDistrictLoop pre 0 none).1.ltB M = true :=
    adLoop_max_stays_below pre M 0 none hpos hpre
  simp only [assignDistrictLoop, hM, hm1, if_true]
  rw [adLoop_no_improvement post M _ hpost]
  rw [gemCode, hgem]
  simp [hna]

/-- Counterexample for C8 as stated: an edge that intersects a district
(non-empty intersection) in a single point — intersection length 0 —
gets a `None` Bezirksnummer even though the district's `gem` code is
present. -/
theorem district_assignment_counterexample :
    ((⟨some (vStr "11000001"), some 0⟩ : DistrictInter).inter ≠ none) ∧
    ((⟨some (vStr "11000001"), some 0⟩ : DistrictInter).gem ≠ none) ∧
    assign_district_to_edge [⟨some (vStr "11000001"), some 0⟩] = none := by
  decide

/-- Witness for C8 at a concrete input: a single district with a
positive-length intersection and gem code `11000001` yields
Bezirksnummer `"01"`. -/
theorem district_assignment_longest_positive_witness :
    assign_district_to_edge [⟨some (vStr "11000001"), some 5⟩] = some "01" ∧
    PyFloat.ltB 0 5 = true := by
  have h := district_assignment_longest_positive [] []
    ⟨some (vStr "11000001"), some 5⟩ 5 (vStr "11000001") rfl rfl (by decide) (by decide)
    (fun d hd => absurd hd (List.not_mem_nil d))
    (fun d hd => absurd hd (List.not_mem_nil d))
  exact ⟨h, by decide⟩

/-! ### Claim C5 — placeholder variants when no candidate is in range -/

/-- C5: when no TILDA candidate survives the distance filter (including
the case of an empty spatial query), the segment yields exactly two
directed variants, `ri = 0` and `ri = 1`, each with
`fuehr = "Keine Radinfrastruktur vorhanden"` and every other normalized
attribute `None`; and the batch loop continues past such a segment —
the outcome is recoverable, not fatal. -/
theorem snapping_no_candidates_two_placeholder_variants
    (seg : Seg) (cands : List Candidate) (buffer : PyFloat)
    (h : cands.filter (fun c => c.d.leB buffer) = []) :
    process_one_segment seg cands buffer =
      [noCandidateVariant seg 0, noCandidateVariant seg 1] ∧
    (process_one_segment seg cands buffer).map (fun v => rowLookup v "ri") =
      [some (vInt 0), some (vInt 1)] ∧
    (∀ v ∈ process_one_segment seg cands buffer,
      rowLookup v "fuehr" = some (vStr "Keine Radinfrastruktur vorhanden") ∧
      ∀ a ∈ normalizedAttrs, a ≠ "fuehr" → rowLookup v a = some vNone) ∧
    (∀ pre post : List Seg,
      process_segments_batch (pre ++ seg :: post) cands buffer =
        process_segments_batch pre cands buffer ++ process_one_segment seg cands buffer ++
          process_segments_batch post cands buffer) := by
  have hmain : process_one_segment seg cands buffer =
      [noCandidateVariant seg 0, noCandidateVariant seg 1] := by
    cases cands with
    | nil => rfl
    | cons c cs2 =>
      rw [process_one_segment]
      rw [if_neg (by simp)]
      rw [h]
      rfl
  have hprops : ∀ ri_value : ℕ,
      rowLookup (noCandidateVariant seg ri_value) "fuehr" =
        some (vStr "Keine Radinfrastruktur vorhanden") ∧
      ∀ a ∈ normalizedAttrs, a ≠ "fuehr" →
        rowLookup (noCandidateVariant seg ri_value) a = some vNone := by
    intro ri_value
    refine ⟨rowLookup_noCandidateVariant_fuehr seg ri_value, ?_⟩
    intro a ha hne
    fin_cases ha <;>
      first
        | exact absurd rfl hne
        | exact rowLookup_noCandidateVariant_merge_none seg ri_value _ (by decide) (by decide)
            (by decide) (by simp [create_base_variant_optimized, rowLookup])
  refine ⟨hmain, ?_, ?_, ?_⟩
  · rw [hmain]
    simp [rowLookup_noCandidateVariant_ri]
  · rw [hmain]
    rw [List.forall_mem_cons, List.forall_mem_cons]
    exact ⟨hprops 0, hprops 1, by intro v hv; exact absurd hv (List.not_mem_nil v)⟩
  · intro pre post
    rw [process_segments_batch, process_segments_batch, process_segments_batch]
    rw [List.map_append, List.map_cons, List.flatten_append, List.flatten_cons]
    rw [List.append_assoc]

/-- Witness for C5: a segment with an empty candidate set. -/
theorem snapping_no_candidates_two_placeholder_variants_witness :
    process_one_segment ⟨[("element_nr", vStr "E0")], 0, 1⟩ [] 25 =
      [noCandidateVariant ⟨[("element_nr", vStr "E0")], 0, 1⟩ 0,
       noCandidateVariant ⟨[("element_nr", vStr "E0")], 0, 1⟩ 1] ∧
    (process_one_segment ⟨[("element_nr", vStr "E0")], 0, 1⟩ [] 25).map
        (fun v => rowLookup v "ri") = [some (vInt 0), some (vInt 1)] ∧
    (process_one_segment ⟨[("element_nr", vStr "E0")], 0, 1⟩ [] 25).map
        (fun v => rowLookup v "fuehr") =
      [some (vStr "Keine Radinfrastruktur vorhanden"),
       some (vStr "Keine Radinfrastruktur vorhanden")] := by
  have h := snapping_no_candidates_two_placeholder_variants
    ⟨[("element_nr", vStr "E0")], 0, 1⟩ [] 25 rfl
  exact ⟨h.1, h.2.1, by decide⟩

/-! ### Claim C6 — single variant for one-way mixed-traffic candidates -/

/-- C6: when every candidate of a segment is a one-way
(`verkehrsri = "Einrichtungsverkehr"`) mixed-traffic
(`fuehr = "Mischverkehr mit motorisiertem Verkehr"`) way and none is a
dual carriageway (`tilda_oneway = "yes_dual_carriageway"`), exactly one
variant is emitted, whose `ri` is 0 when the bearing difference between
segment and chosen candidate is below 90° and 1 otherwise. -/
theorem snapping_single_variant_mixed_oneway (seg : Seg) (cs : List Candidate)
    (hne : cs ≠ [])
    (hE : ∀ c ∈ cs, pyEqStr (candGetD c "verkehrsri" (vStr "")) "Einrichtungsverkehr" = true)
    (hM : ∀ c ∈ cs,
      pyEqStr (candGetD c "fuehr" vNone) "Mischverkehr mit motorisiertem Verkehr" = true)
    (hD : ∀ c ∈ cs,
      pyEqStr (candGetD c "tilda_oneway" (vStr "")) "yes_dual_carriageway" = false) :
    ∃ best, find_best_candidate_for_direction cs none seg.ang = some best ∧
      create_directional_segment_variants_optimized seg (some cs) =
        [variantFromBest seg
          (if (angle_difference seg.ang best.ang).ltB 90 then 0 else 1) best] ∧
      ∀ v ∈ create_directional_segment_variants_optimized seg (some cs),
        rowLookup v "ri" =
          some (vInt ((if (angle_difference seg.ang best.ang).ltB 90 then 0 else 1 : ℕ) : ℤ)) := by
  have hfilterE : cs.filter
      (fun c => pyEqStr (candGetD c "verkehrsri" (vStr "")) "Einrichtungsverkehr") = cs :=
    List.filter_eq_self.mpr hE
  have hfilterD : cs.filter
      (fun c => pyEqStr (candGetD c "tilda_oneway" (vStr "")) "yes_dual_carriageway") = [] :=
    List.filter_eq_nil_iff.mpr (fun c hc => by rw [hD c hc]; exact Bool.false_ne_true)
  have hall : (cs.filter
      (fun c => pyEqStr (candGetD c "verkehrsri" (vStr "")) "Einrichtungsverkehr")).all
      (fun c => pyEqStr (candGetD c "fuehr" vNone)
        "Mischverkehr mit motorisiertem Verkehr") = true := by
    rw [hfilterE]
    exact List.all_eq_true.mpr hM
  obtain ⟨c, rest, rfl⟩ : ∃ c rest, cs = c :: rest := by
    cases cs with
    | nil => exact absurd rfl hne
    | cons c rest => exact ⟨c, rest, rfl⟩
  have hbest : find_best_candidate_for_direction (c :: rest) none seg.ang =
      some (rest.foldl
        (fun best x => if candBetter none seg.ang x best then x else best) c) := rfl
  refine ⟨_, hbest, ?_, ?_⟩
  · rw [create_directional_segment_variants_optimized]
    simp only [Option.getD_some]
    rw [if_neg (by simp)]
    rw [if_pos]
    · rw [hfilterE, hbest]
      rfl
    · refine ⟨?_, ?_, ?_, hall⟩
      · rw [hfilterE]
        simp
      · rw [hfilterE]
      · rw [hfilterD]
        rfl
  · intro v hv
    have heq : create_directional_segment_variants_optimized seg (some (c :: rest)) =
        [variantFromBest seg
          (if (angle_difference seg.ang ((rest.foldl
            (fun best x => if candBetter none seg.ang x best then x else best) c)).ang).ltB 90
            then 0 else 1)
          (rest.foldl
            (fun best x => if candBetter none seg.ang x best then x else best) c)] := by
      rw [create_directional_segment_variants_optimized]
      simp only [Option.getD_some]
      rw [if_neg (by simp)]
      rw [if_pos]
      · rw [hfilterE, hbest]
        rfl
      · refine ⟨?_, ?_, ?_, hall⟩
        · rw [hfilterE]
          simp
        · rw [hfilterE]
        · rw [hfilterD]
          rfl
    rw [heq] at hv
    rw [List.mem_singleton] at hv
    rw [hv]
    exact rowLookup_variantFromBest_ri seg _ _

/-- Witness for C6: a single one-way mixed-traffic candidate at 100°
bearing difference yields exactly one variant with `ri = 1`. -/
theorem snapping_single_variant_mixed_oneway_witness :
    ∃ best, find_best_candidate_for_direction
        [⟨[("verkehrsri", vStr "Einrichtungsverkehr"),
           ("fuehr", vStr "Mischverkehr mit motorisiertem Verkehr")], 100, 1, 1⟩]
        none (⟨[("element_nr", vStr "E1")], 0, 1⟩ : Seg).ang = some best ∧
      create_directional_segment_variants_optimized ⟨[("element_nr", vStr "E1")], 0, 1⟩
          (some [⟨[("verkehrsri", vStr "Einrichtungsverkehr"),
            ("fuehr", vStr "Mischverkehr mit motorisiertem Verkehr")], 100, 1, 1⟩]) =
        [variantFromBest ⟨[("element_nr", vStr "E1")], 0, 1⟩
          (if (angle_difference (⟨[("element_nr", vStr "E1")], 0, 1⟩ : Seg).ang
            best.ang).ltB 90 then 0 else 1) best] ∧
      ∀ v ∈ create_directional_segment_variants_optimized ⟨[("element_nr", vStr "E1")], 0, 1⟩
          (some [⟨[("verkehrsri", vStr "Einrichtungsverkehr"),
            ("fuehr", vStr "Mischverkehr mit motorisiertem Verkehr")], 100, 1, 1⟩]),
        rowLookup v "ri" =
          some (vInt ((if (angle_difference (⟨[("element_nr", vStr "E1")], 0, 1⟩ : Seg).ang
            best.ang).ltB 90 then 0 else 1 : ℕ) : ℤ)) :=
  snapping_single_variant_mixed_oneway ⟨[("element_nr", vStr "E1")], 0, 1⟩
    [⟨[("verkehrsri", vStr "Einrichtungsverkehr"),
       ("fuehr", vStr "Mischverkehr mit motorisiertem Verkehr")], 100, 1, 1⟩]
    (by decide) (by decide) (by decide) (by decide)

/-! ### Claim C2 — the ri=1 variant for a sole one-way candidate -/

/-- C2 counterexample: a single in-range candidate with
`verkehrsri = "Einrichtungsverkehr"`, bearing identical to the segment
and `fuehr = "Radweg"` (so the mixed-traffic special case does not
trigger) is copied into BOTH directed variants: the `ri = 1` variant
gets `fuehr = "Radweg"`, not `"Keine Radinfrastruktur vorhanden"` as
the claim states. -/
theorem snapping_oneway_ri1_counterexample :
    (let seg : Seg := ⟨[("element_nr", vStr "E1")], 0, ⟨5, 2⟩⟩
     let c : Candidate := ⟨[("verkehrsri", vStr "Einrichtungsverkehr"),
       ("fuehr", vStr "Radweg"), ("tilda_id", vStr "way/1")], 0, 1, 1⟩
     pyEqStr (candGetD c "verkehrsri" (vStr "")) "Einrichtungsverkehr" = true ∧
     c.ang = seg.ang ∧
     pyEqStr (candGetD c "fuehr" vNone) "Mischverkehr mit motorisiertem Verkehr" = false ∧
     (create_directional_segment_variants_optimized seg (some [c])).map
       (fun v => (rowLookup v "ri", rowLookup v "fuehr")) =
       [(some (vInt 0), some (vStr "Radweg")), (some (vInt 1), some (vStr "Radweg"))] ∧
     vStr "Radweg" ≠ vStr "Keine Radinfrastruktur vorhanden") := by
  decide

/-- C2 (amended): for a sole candidate with
`verkehrsri = "Einrichtungsverkehr"` and bearing identical to the
segment that is not a mixed-traffic way, BOTH directed variants are
built from that candidate (per-direction selection never filters by
direction compatibility; it only sorts), so the `ri = 1` variant copies
the candidate's `fuehr` as well. -/
theorem snapping_oneway_single_candidate_both_variants (seg : Seg) (c : Candidate) (x : Val)
    (hE : pyEqStr (candGetD c "verkehrsri" (vStr "")) "Einrichtungsverkehr" = true)
    (hAng : c.ang = seg.ang)
    (hM : pyEqStr (candGetD c "fuehr" vNone) "Mischverkehr mit motorisiertem Verkehr" = false)
    (hf : rowLookup c.attrs "fuehr" = some x) :
    create_directional_segment_variants_optimized seg (some [c]) =
      [variantFromBest seg 0 c, variantFromBest seg 1 c] ∧
    ∀ v ∈ create_directional_segment_variants_optimized seg (some [c]),
      rowLookup v "fuehr" = some x := by
  have hfilterE : [c].filter
      (fun a => pyEqStr (candGetD a "verkehrsri" (vStr "")) "Einrichtungsverkehr") = [c] :=
    List.filter_eq_self.mpr (by
      intro a ha
      rw [List.mem_singleton] at ha
      rw [ha]
      exact hE)
  have hmain : create_directional_segment_variants_optimized seg (some [c]) =
      [variantFromBest seg 0 c, variantFromBest seg 1 c] := by
    rw [create_directional_segment_variants_optimized]
    simp only [Option.getD_some]
    rw [if_neg (by simp)]
    rw [if_neg]
    · rcases Bool.eq_false_or_eq_true
        (pyEqStr (candGetD c "tilda_oneway" (vStr "")) "yes_dual_carriageway") with hdual | hdual
      · have hfD : [c].filter
            (fun a => pyEqStr (candGetD a "tilda_oneway" (vStr "")) "yes_dual_carriageway") = [c] :=
          List.filter_eq_self.mpr (by
            intro a ha
            rw [List.mem_singleton] at ha
            rw [ha]
            exact hdual)
        rw [hfD]
        rw [if_pos]
        · rfl
        · refine ⟨by simp, rfl, ?_⟩
          rw [List.all_cons, List.all_nil, Bool.and_true]
          exact hE
      · have hfD : [c].filter
            (fun a => pyEqStr (candGetD a "tilda_oneway" (vStr "")) "yes_dual_carriageway") = [] :=
          List.filter_eq_nil_iff.mpr (by
            intro a ha
            rw [List.mem_singleton] at ha
            rw [ha, hdual]
            exact Bool.false_ne_true)
        rw [hfD]
        rw [if_neg (by simp)]
        rfl
    · rintro ⟨-, -, -, hall⟩
      rw [hfilterE, List.all_cons, List.all_nil, Bool.and_true] at hall
      rw [hM] at hall
      exact Bool.false_ne_true hall
  refine ⟨hmain, ?_⟩
  rw [hmain]
  rw [List.forall_mem_cons, List.forall_mem_cons]
  refine ⟨?_, ?_, by intro v hv; exact absurd hv (List.not_mem_nil v)⟩
  · exact rowLookup_variantFromBest_merge seg 0 c "fuehr" x (by decide) (by decide) hf
  · exact rowLookup_variantFromBest_merge seg 1 c "fuehr" x (by decide) (by decide) hf

/-- Witness for the amended C2 theorem at a concrete segment and sole
`"Radweg"` candidate. -/
theorem snapping_oneway_single_candidate_both_variants_witness :
    create_directional_segment_variants_optimized ⟨[("element_nr", vStr "E2")], 0, ⟨5, 2⟩⟩
        (some [⟨[("verkehrsri", vStr "Einrichtungsverkehr"),
          ("fuehr", vStr "Radweg")], 0, 1, 1⟩]) =
      [variantFromBest ⟨[("element_nr", vStr "E2")], 0, ⟨5, 2⟩⟩ 0
        ⟨[("verkehrsri", vStr "Einrichtungsverkehr"), ("fuehr", vStr "Radweg")], 0, 1, 1⟩,
       variantFromBest ⟨[("element_nr", vStr "E2")], 0, ⟨5, 2⟩⟩ 1
        ⟨[("verkehrsri", vStr "Einrichtungsverkehr"), ("fuehr", vStr "Radweg")], 0, 1, 1⟩] ∧
    ∀ v ∈ create_directional_segment_variants_optimized ⟨[("element_nr", vStr "E2")], 0, ⟨5, 2⟩⟩
        (some [⟨[("verkehrsri", vStr "Einrichtungsverkehr"),
          ("fuehr", vStr "Radweg")], 0, 1, 1⟩]),
      rowLookup v "fuehr" = some (vStr "Radweg") :=
  snapping_oneway_single_candidate_both_variants ⟨[("element_nr", vStr "E2")], 0, ⟨5, 2⟩⟩
    ⟨[("verkehrsri", vStr "Einrichtungsverkehr"), ("fuehr", vStr "Radweg")], 0, 1, 1⟩
    (vStr "Radweg") (by decide) (by decide) (by decide) (by decide)

/-! ### Claim C1 — the oriented candidate set is never used for selection -/

/-- C1 counterexample: the code computes the `angle_diff` column but
passes ALL distance-filtered candidates to variant creation, so a
candidate whose bearing differs from the segment by 90° (outside the
50° oriented set) wins on distance, while the spec-described oriented
selection would pick the aligned candidate. -/
theorem snapping_orientation_filter_counterexample :
    (let seg : Seg := ⟨[("element_nr", vStr "E1")], 0, ⟨5, 2⟩⟩
     let cNear : Candidate := ⟨[("verkehrsri", vStr "Zweirichtungsverkehr"),
       ("fuehr", vStr "Schutzstreifen"), ("tilda_id", vStr "way/2")], 90, 1, 1⟩
     let cFar : Candidate := ⟨[("verkehrsri", vStr "Zweirichtungsverkehr"),
       ("fuehr", vStr "Radweg"), ("tilda_id", vStr "way/3")], 0, 1, 5⟩
     (angle_difference cNear.ang seg.ang).leB 50 = false ∧
     (angle_difference cFar.ang seg.ang).leB 50 = true ∧
     cNear.d.leB 25 = true ∧ cFar.d.leB 25 = true ∧
     (process_one_segment seg [cFar, cNear] 25).map (fun v => rowLookup v "fuehr") =
       [some (vStr "Schutzstreifen"), some (vStr "Schutzstreifen")] ∧
     (spec_oriented_process_one_segment seg [cFar, cNear] 25 50).map
       (fun v => rowLookup v "fuehr") =
       [some (vStr "Radweg"), some (vStr "Radweg")] ∧
     process_one_segment seg [cFar, cNear] 25 ≠
       spec_oriented_process_one_segment seg [cFar, cNear] 25 50) := by
  decide

/-- C1 (amended): the code agrees with the spec-described oriented
selection exactly in the degenerate cases — when the oriented set is
empty (the spec falls back to all distance-filtered candidates) or when
the orientation filter removes nothing. -/
theorem process_one_segment_eq_spec_oriented (seg : Seg) (cands : List Candidate)
    (buffer maxAngle : PyFloat)
    (h : (cands.filter (fun c => c.d.leB buffer)).filter
        (fun c => (angle_difference c.ang seg.ang).leB maxAngle) = [] ∨
      (cands.filter (fun c => c.d.leB buffer)).filter
        (fun c => (angle_difference c.ang seg.ang).leB maxAngle) =
        cands.filter (fun c => c.d.leB buffer)) :
    process_one_segment seg cands buffer =
      spec_oriented_process_one_segment seg cands buffer maxAngle := by
  rw [process_one_segment, spec_oriented_process_one_segment]
  by_cases h0 : cands.length = 0
  · rw [if_pos h0, if_pos h0]
  · rw [if_neg h0, if_neg h0]
    by_cases h1 : (cands.filter (fun c => c.d.leB buffer)).length = 0
    · rw [if_pos h1, if_pos h1]
    · rw [if_neg h1, if_neg h1]
      rcases h with h | h
      · rw [h]
        simp
      · rw [h]
        simp only [ite_self]

/-- Witness for the amended C1 theorem: a single aligned in-range
candidate, where the orientation filter keeps everything. -/
theorem process_one_segment_eq_spec_oriented_witness :
    process_one_segment ⟨[("element_nr", vStr "E3")], 0, ⟨5, 2⟩⟩
        [⟨[("fuehr", vStr "Radweg")], 0, 1, 1⟩] 25 =
      spec_oriented_process_one_segment ⟨[("element_nr", vStr "E3")], 0, ⟨5, 2⟩⟩
        [⟨[("fuehr", vStr "Radweg")], 0, 1, 1⟩] 25 50 :=
  process_one_segment_eq_spec_oriented ⟨[("element_nr", vStr "E3")], 0, ⟨5, 2⟩⟩
    [⟨[("fuehr", vStr "Radweg")], 0, 1, 1⟩] 25 50 (Or.inr (by decide))

/-! ### Claim C3 — helper lemmas about the translator's key discipline -/

theorem rowGetD_eq_of_none (r : Row) (k : String) (h : rowLookup r k = none) (d : Val) :
    rowGetD r k d = d := by
  rw [rowGetD, h]
  rfl

theorem rowGetD_nil (k : String) (d : Val) : rowGetD ([] : Row) k d = d := rfl

theorem tilda_append_ne (j a : String) (h6 : a.data.take 6 ≠ ("tilda_" : String).data) :
    "tilda_" ++ j ≠ a := by
  obtain ⟨d⟩ := j
  intro h
  apply h6
  rw [← h]
  rfl

/-- A key that is neither a normalized attribute nor `geometry` nor of
the form `tilda_<...>` never occurs in the output of the
prefix-and-drop step. -/
theorem rowLookup_assign_prefix_absent (r : Row) (k : String)
    (hk : k ∉ rvnAttributes) (hg : k ≠ "geometry")
    (hpre : ∀ j : String, "tilda_" ++ j ≠ k) :
    rowLookup (assign_prefix_and_remove_unnecessary_attrs r) k = none := by
  induction r with
  | nil => rfl
  | cons e rest ih =>
    obtain ⟨k1, v1⟩ := e
    rw [assign_prefix_and_remove_unnecessary_attrs] at ih ⊢
    rw [List.filter_cons]
    by_cases hrm : k1 ∈ CONFIG_REMOVE_TILDA_ATTRIBUTES
    · rw [if_neg (by simp [hrm])]
      exact ih
    · rw [if_pos (by simp [hrm])]
      simp only [List.map_cons]
      by_cases hkeep : k1 ∈ rvnAttributes ∨ k1 = "geometry"
      · rw [if_pos hkeep]
        have hne : k1 ≠ k := by
          rcases hkeep with h1 | h1
          · intro hc
            exact hk (hc ▸ h1)
          · intro hc
            exact hg (hc ▸ h1)
        rw [rowLookup, if_neg hne]
        exact ih
      · rw [if_neg hkeep]
        rw [rowLookup, if_neg (hpre k1)]
        exact ih

/-- The prefix-and-drop step preserves the binding of every normalized
attribute (and of `geometry`). -/
theorem rowLookup_assign_prefix_keep (r : Row) (a : String)
    (ha : a ∈ rvnAttributes ∨ a = "geometry")
    (hrm : a ∉ CONFIG_REMOVE_TILDA_ATTRIBUTES)
    (hpre : ∀ j : String, "tilda_" ++ j ≠ a) :
    rowLookup (assign_prefix_and_remove_unnecessary_attrs r) a = rowLookup r a := by
  induction r with
  | nil => rfl
  | cons e rest ih =>
    obtain ⟨k1, v1⟩ := e
    rw [assign_prefix_and_remove_unnecessary_attrs] at ih ⊢
    rw [List.filter_cons]
    by_cases hrmk : k1 ∈ CONFIG_REMOVE_TILDA_ATTRIBUTES
    · rw [if_neg (by simp [hrmk])]
      have hne : k1 ≠ a := fun hc => hrm (hc ▸ hrmk)
      rw [ih, rowLookup, if_neg hne]
    · rw [if_pos (by simp [hrmk])]
      simp only [List.map_cons]
      by_cases hkeep : k1 ∈ rvnAttributes ∨ k1 = "geometry"
      · rw [if_pos hkeep]
        by_cases hka : k1 = a
        · subst hka
          rw [rowLookup, if_pos rfl, rowLookup, if_pos rfl]
        · rw [rowLookup, if_neg hka, ih, rowLookup, if_neg hka]
      · rw [if_neg hkeep]
        have hka : k1 ≠ a := by
          rintro rfl
          rcases ha with h1 | h1
          · exact hkeep (Or.inl h1)
          · exact hkeep (Or.inr h1)
        rw [rowLookup, if_neg (hpre k1), ih, rowLookup, if_neg hka]

/-- No raw translator input column survives a translation pass: it is
either dropped or renamed to `tilda_<...>`. -/
theorem translate_raw_absent (r : Row) (ds : String) :
    ∀ k ∈ translatorInputKeys, rowLookup (translate_tilda_attributes r ds) k = none := by
  intro k hk
  rw [translate_tilda_attributes]
  fin_cases hk <;>
    exact rowLookup_assign_prefix_absent _ _ (by decide) (by decide)
      (fun j => tilda_append_ne j _ (by decide))

/-- The nine normalized columns of `setNormalizedAttrs` hold exactly the
values the `determine_*` helpers computed from the input row. -/
theorem rowLookup_setNormalizedAttrs_all (row : Row) (ds : String) :
    rowLookup (setNormalizedAttrs row ds) "verkehrsri" =
      some (vStr (determine_verkehrsri row ds)) ∧
    rowLookup (setNormalizedAttrs row ds) "fuehr" =
      some (vStr (determine_fuehrung row ds)) ∧
    rowLookup (setNormalizedAttrs row ds) "pflicht" =
      some (vBool (determine_pflicht row ds)) ∧
    rowLookup (setNormalizedAttrs row ds) "breite" =
      some (match parse_width (rowGetD row "width" vNone) with
        | none => vNone
        | some q => vFloat q) ∧
    rowLookup (setNormalizedAttrs row ds) "ofm" = some (vStr (determine_ofm row)) ∧
    rowLookup (setNormalizedAttrs row ds) "farbe" = some (vBool (determine_farbe row)) ∧
    rowLookup (setNormalizedAttrs row ds) "protek" = some (vStr (determine_protek row)) ∧
    rowLookup (setNormalizedAttrs row ds) "trennstreifen" =
      some (vStr (determine_trennstreifen row)) ∧
    rowLookup (setNormalizedAttrs row ds) "nutz_beschr" =
      some (vStr (determine_nutz_beschr row)) := by
  refine ⟨?_, ?_, ?_, ?_, ?_, ?_, ?_, ?_, ?_⟩ <;>
    simp [setNormalizedAttrs, rowLookup_rowSet_ne, rowLookup_rowSet_self]

/-- A row that binds none of the raw translator input columns is
translated exactly as the empty row: every `determine_*` helper returns
its missing-input default. -/
theorem determines_default_of_no_raw (row : Row) (ds : String)
    (h : ∀ k ∈ translatorInputKeys, rowLookup row k = none) :
    determine_verkehrsri row ds = determine_verkehrsri [] ds ∧
    determine_fuehrung row ds = determine_fuehrung [] ds ∧
    determine_pflicht row ds = determine_pflicht [] ds ∧
    parse_width (rowGetD row "width" vNone) = parse_width (rowGetD ([] : Row) "width" vNone) ∧
    determine_ofm row = determine_ofm [] ∧
    determine_farbe row = determine_farbe [] ∧
    determine_protek row = determine_protek [] ∧
    determine_trennstreifen row = determine_trennstreifen [] ∧
    determine_nutz_beschr row = determine_nutz_beschr [] := by
  have h1 := rowGetD_eq_of_none row "oneway" (h "oneway" (by decide))
  have h2 := rowGetD_eq_of_none row "oneway_bicycle" (h "oneway_bicycle" (by decide))
  have h3 := rowGetD_eq_of_none row "category" (h "category" (by decide))
  have h4 := rowGetD_eq_of_none row "traffic_sign" (h "traffic_sign" (by decide))
  have h5 := rowGetD_eq_of_none row "surface" (h "surface" (by decide))
  have h6 := rowGetD_eq_of_none row "surface_color" (h "surface_color" (by decide))
  have h7 := rowGetD_eq_of_none row "width" (h "width" (by decide))
  have h8 := rowGetD_eq_of_none row "separation" (h "separation" (by decide))
  have h9 := rowGetD_eq_of_none row "traffic_mode_left" (h "traffic_mode_left" (by decide))
  have h10 := rowGetD_eq_of_none row "traffic_mode_right" (h "traffic_mode_right" (by decide))
  have h11 := rowGetD_eq_of_none row "marking" (h "marking" (by decide))
  have h12 := rowGetD_eq_of_none row "buffer_right" (h "buffer_right" (by decide))
  have g1 : ∀ d, rowGetD row ("separation_" ++ "left") d = d :=
    rowGetD_eq_of_none row "separation_left" (h "separation_left" (by decide))
  have g2 : ∀ d, rowGetD row ("separation_" ++ "right") d = d :=
    rowGetD_eq_of_none row "separation_right" (h "separation_right" (by decide))
  have g3 : ∀ d, rowGetD row ("traffic_mode_" ++ "left") d = d :=
    rowGetD_eq_of_none row "traffic_mode_left" (h "traffic_mode_left" (by decide))
  have g4 : ∀ d, rowGetD row ("traffic_mode_" ++ "right") d = d :=
    rowGetD_eq_of_none row "traffic_mode_right" (h "traffic_mode_right" (by decide))
  have g5 : ∀ d, rowGetD row ("marking_" ++ "left") d = d :=
    rowGetD_eq_of_none row "marking_left" (h "marking_left" (by decide))
  have g6 : ∀ d, rowGetD row ("marking_" ++ "right") d = d :=
    rowGetD_eq_of_none row "marking_right" (h "marking_right" (by decide))
  refine ⟨?_, ?_, ?_, ?_, ?_, ?_, ?_, ?_, ?_⟩
  · simp only [determine_verkehrsri, h1, h2, rowGetD_nil]
  · simp only [determine_fuehrung, h3, h4, rowGetD_nil]
  · simp only [determine_pflicht, h4, rowGetD_nil]
  · rw [h7, rowGetD_nil]
  · simp only [determine_ofm, ofmSurfaceKey, h5, rowGetD_nil]
  · simp only [determine_farbe, h6, rowGetD_nil]
  · simp only [determine_protek, protekSide, h3, h8, g1, g2, g3, g4, g5, g6, h11, rowGetD_nil]
  · simp only [determine_trennstreifen, h3, h9, h10, g3, g4, g5, g6, h12, rowGetD_nil]
  · simp only [determine_nutz_beschr, h4, rowGetD_nil]

/-- On a row that binds no raw translator input column, a translation
pass yields the same normalized bindings as translating the empty row. -/
theorem translate_lookup_of_no_raw (r : Row) (ds a : String) (ha : a ∈ normalizedAttrs)
    (h : ∀ k ∈ translatorInputKeys, rowLookup r k = none) :
    rowLookup (translate_tilda_attributes r ds) a =
      rowLookup (translate_tilda_attributes [] ds) a := by
  obtain ⟨d1, d2, d3, d4, d5, d6, d7, d8, d9⟩ := determines_default_of_no_raw r ds h
  obtain ⟨s1, s2, s3, s4, s5, s6, s7, s8, s9⟩ := rowLookup_setNormalizedAttrs_all r ds
  obtain ⟨n1, n2, n3, n4, n5, n6, n7, n8, n9⟩ := rowLookup_setNormalizedAttrs_all [] ds
  rw [translate_tilda_attributes, translate_tilda_attributes]
  fin_cases ha <;>
    rw [rowLookup_assign_prefix_keep _ _ (by decide) (by decide)
        (fun j => tilda_append_ne j _ (by decide)),
      rowLookup_assign_prefix_keep _ _ (by decide) (by decide)
        (fun j => tilda_append_ne j _ (by decide))] <;>
    simp only [s1, s2, s3, s4, s5, s6, s7, s8, s9, n1, n2, n3, n4, n5, n6, n7, n8, n9,
      d1, d2, d3, d4, d5, d6, d7, d8, d9]

/-! ### Claim C3 — the translator round trip is not a no-op -/

/-- C3 counterexample: for the one-way bikelane row the first pass sets
`verkehrsri = "Einrichtungsverkehr"`, but re-applying the translator
overwrites it with the missing-input default
`"[TODO] Fehlender Wert"` (the raw `oneway` column was renamed to
`tilda_oneway` by the first pass), so the round trip is not a no-op on
the normalized fields. -/
theorem translator_round_trip_counterexample :
    (let row : Row := [("oneway", vStr "yes")]
     rowLookup (translate_tilda_attributes row "bikelanes") "verkehrsri" =
       some (vStr "Einrichtungsverkehr") ∧
     rowLookup (translate_tilda_attributes (translate_tilda_attributes row "bikelanes")
         "bikelanes") "verkehrsri" = some (vStr "[TODO] Fehlender Wert") ∧
     "verkehrsri" ∈ normalizedAttrs ∧
     rowLookup (translate_tilda_attributes (translate_tilda_attributes row "bikelanes")
         "bikelanes") "verkehrsri" ≠
       rowLookup (translate_tilda_attributes row "bikelanes") "verkehrsri") := by
  decide

/-- C3 (amended): the second translator application is not a no-op but a
reset — on every normalized field it produces the missing-input
defaults (the translation of the empty row), for every input row and
every data source; consequently the translator IS a no-op from the
second application on. -/
theorem translator_second_pass_resets (row : Row) (ds a : String)
    (ha : a ∈ normalizedAttrs) :
    rowLookup (translate_tilda_attributes (translate_tilda_attributes row ds) ds) a =
      rowLookup (translate_tilda_attributes [] ds) a ∧
    rowLookup (translate_tilda_attributes (translate_tilda_attributes
        (translate_tilda_attributes row ds) ds) ds) a =
      rowLookup (translate_tilda_attributes (translate_tilda_attributes row ds) ds) a := by
  refine ⟨translate_lookup_of_no_raw _ ds a ha (translate_raw_absent row ds), ?_⟩
  exact (translate_lookup_of_no_raw _ ds a ha
      (translate_raw_absent (translate_tilda_attributes row ds) ds)).trans
    (translate_lookup_of_no_raw _ ds a ha (translate_raw_absent row ds)).symm

/-- Witness for the amended C3 theorem at the one-way bikelane row and
the `verkehrsri` column. -/
theorem translator_second_pass_resets_witness :
    "verkehrsri" ∈ normalizedAttrs ∧
    (rowLookup (translate_tilda_attributes (translate_tilda_attributes
        [("oneway", vStr "yes")] "bikelanes") "bikelanes") "verkehrsri" =
      rowLookup (translate_tilda_attributes [] "bikelanes") "verkehrsri" ∧
    rowLookup (translate_tilda_attributes (translate_tilda_attributes
        (translate_tilda_attributes [("oneway", vStr "yes")] "bikelanes") "bikelanes")
        "bikelanes") "verkehrsri" =
      rowLookup (translate_tilda_attributes (translate_tilda_attributes
        [("oneway", vStr "yes")] "bikelanes") "bikelanes") "verkehrsri") :=
  ⟨by decide, translator_second_pass_resets [("oneway", vStr "yes")] "bikelanes" "verkehrsri"
    (by decide)⟩

end Radnetz
